import Mathlib

/-
  Verification development for the senmu NES emulator core.

  Shallow embedding of the C++ sources:
    - src/nes_core/memory/Ram.hpp, PaletteRam.hpp, VRam.hpp
    - src/nes_core/cartridge/GamePak.cpp, mapper/Mapper_000.hpp
    - src/nes_core/ppu/Ntsc2C02.cpp
    - src/nes_core/cpu/Mos6502.cpp, AddressingModes.cpp, Instructions.cpp
    - src/nes_core/Nes.cpp
    - src/nes_core/input/NesController.hpp

  Machine integers are modelled as Nat with explicit masking where the C++
  types wrap: uint8 values are reduced mod 0x100, uint16 values mod 0x10000.
  Byte stores (std::array<uint8_t, N> / std::vector<uint8_t>) are modelled
  as functions Nat -> Nat whose reads are masked with % 0x100, reflecting
  the uint8_t element type.  Assertions compiled out in release builds
  (NDEBUG) are modelled as no-ops, as noted at each use site.
-/

namespace NES

/-- Pointwise update of a byte store, modelling `mem[a] = v`. -/
def upd (f : Nat → Nat) (a v : Nat) : Nat → Nat :=
  fun x => if x = a then v else f x

/-! ## Mirrored RAM (Ram.hpp, template parameter `size` a power of two)

`read(a)` returns `mem[a & (size-1)]`, `write(a,v)` stores symmetrically. -/

/-- `Ram<size>::read`: fold the address with `size - 1` and read the byte. -/
def ramRead (size : Nat) (mem : Nat → Nat) (a : Nat) : Nat :=
  mem (a &&& (size - 1)) % 0x100

/-- `Ram<size>::write`: fold the address with `size - 1` and store the byte. -/
def ramWrite (size : Nat) (mem : Nat → Nat) (a v : Nat) : Nat → Nat :=
  upd mem (a &&& (size - 1)) (v % 0x100)

/-! ## Palette RAM (PaletteRam.hpp): 32-byte store with background mirroring -/

/-- `PaletteRam::bgMirror`: addresses 0x3F10/14/18/1C alias 0x3F00/04/08/0C.
If `addr & 0x13 == 0x10` the bit 0x10 is removed. -/
def bgMirror (a : Nat) : Nat :=
  if a &&& 0x13 = 0x10 then a &&& 0xFFEF else a

/-- `PaletteRam::read` = `Ram<0x20>::read (bgMirror addr)`. -/
def paletteRead (mem : Nat → Nat) (a : Nat) : Nat :=
  ramRead 0x20 mem (bgMirror a)

/-- `PaletteRam::write` = `Ram<0x20>::write (bgMirror addr)`. -/
def paletteWrite (mem : Nat → Nat) (a v : Nat) : Nat → Nat :=
  ramWrite 0x20 mem (bgMirror a) v

/-! ## Video RAM (VRam.hpp): 2 KiB with nametable mirroring.

`mirroring` is the iNES::NtMirroring value: HORIZONTAL = 0, VERTICAL = 1. -/

/-- `VRam::mirror`: remove bits 10 and 11, then re-insert one bit chosen by
the mirroring mode (`(((a & 0x800) && !mirroring) || ((a & 0x400) && mirroring)) << 10`). -/
def vramMirror (mirroring : Nat) (a : Nat) : Nat :=
  (a &&& 0xF3FF) |||
    ((if (a &&& 0x800 ≠ 0 ∧ mirroring = 0) ∨ (a &&& 0x400 ≠ 0 ∧ mirroring ≠ 0)
      then 1 else 0) <<< 10)

/-- `VRam::read` = `Ram<2048>::read (mirror addr)`. -/
def vramRead (mirroring : Nat) (mem : Nat → Nat) (a : Nat) : Nat :=
  ramRead 0x800 mem (vramMirror mirroring a)

/-- `VRam::write` = `Ram<2048>::write (mirror addr)`. -/
def vramWrite (mirroring : Nat) (mem : Nat → Nat) (a v : Nat) : Nat → Nat :=
  ramWrite 0x800 mem (vramMirror mirroring a) v

/-! ## Mapper 0 / NROM (Mapper_000.hpp) -/

/-- `Mapper_000::mapPrgRomRead`: `addr & (nPrgRomBanks > 1 ? 0x7FFF : 0x3FFF)`. -/
def mapPrgRomRead (nPrgRomBanks : Nat) (a : Nat) : Nat :=
  a &&& (if nPrgRomBanks > 1 then 0x7FFF else 0x3FFF)

/-- `Mapper_000::mapPrgRomWrite`: the function body is
`assert(false && "PRG ROM write not supported"); return 0x00;`.
In an NDEBUG (release) build the assert is compiled out and the call
returns 0. That release behaviour is modelled here. -/
def mapPrgRomWrite (_a : Nat) : Nat := 0

/-- `Mapper_000::mapChrRomRead`: identity. -/
def mapChrRomRead (a : Nat) : Nat := a

/-- `Mapper_000::mapChrRomWrite`: `assert(false); return 0x00;` — release
build model, see `mapPrgRomWrite`. -/
def mapChrRomWrite (_a : Nat) : Nat := 0

/-! ## PPU register file (Ntsc2C02.cpp, the revision Ntsc2C02.cpp compiles against)

`scanline` runs over -1 .. 260 so it is an Int; everything else is a Nat or Bool.
PPUCTRL flag bits (Ntsc2C02.hpp): IncrementMode = 2, GenerateNMI = 7.
PPUSTATUS flag bits: VerticalBlanking = 7. -/

structure PpuState where
  cycles : Nat           -- dot counter within the scanline
  scanline : Int
  frameCompleted : Bool
  frameCounter : Nat
  ctrl : Nat             -- r_PPUCTRL
  mask : Nat             -- r_PPUMASK
  statusReg : Nat        -- r_PPUSTATUS
  dataBuffer : Nat
  tmpAddr : Nat          -- r_TMPADDR (t)
  ppuAddr : Nat          -- r_PPUADDR (v)
  coarseX : Nat
  coarseY : Nat
  fineX : Nat
  fineY : Nat
  nametableIdx : Nat
  writeToggle : Bool     -- r_writeToggle (w)
  deriving Repr

/-! ## CPU register file (Mos6502.hpp)

Status bit positions: C=0, Z=1, I=2, D=3, B=4, U=5, V=6, N=7. -/

structure CpuState where
  pc : Nat
  sp : Nat
  a : Nat
  x : Nat
  y : Nat
  status : Nat
  cycles : Nat                -- remaining cycles of the current instruction
  opcode : Nat
  fetched : Nat
  addr : Nat
  cyclesCounter : Nat
  instructionsCounter : Nat
  deriving Repr

/-- Everything the two bus routers can reach: the memories, the cartridge,
the PPU register file and the pending-NMI latch (NesSystem minus the CPU). -/
structure SysBus where
  ram : Nat → Nat            -- Ram<2*1024>
  vramMem : Nat → Nat        -- VRam backing store
  mirroring : Nat            -- VRam mirroring mode (0 horizontal, 1 vertical)
  palette : Nat → Nat        -- PaletteRam backing store
  prgRom : Nat → Nat
  chrRom : Nat → Nat
  nPrgRomBanks : Nat
  nChrRomBanks : Nat
  ppu : PpuState
  pendingNmi : Bool

/-- The whole NesSystem: bus-visible state, the CPU, and the master clock. -/
structure Sys where
  bus : SysBus
  cpu : CpuState
  clockCounter : Nat

/-! ## GamePak (GamePak.cpp), delegating to Mapper_000 -/

/-- `GamePak::prgRomRead`: translate through the mapper, read the PRG byte. -/
def prgRomRead (b : SysBus) (a : Nat) : Nat :=
  b.prgRom (mapPrgRomRead b.nPrgRomBanks a) % 0x100

/-- `GamePak::prgRomWrite`: translate through the mapper and store the byte
(`prgRom[writeAddr] = data`) — the write is performed, not discarded. -/
def prgRomWrite (b : SysBus) (a v : Nat) : SysBus :=
  { b with prgRom := upd b.prgRom (mapPrgRomWrite a) (v % 0x100) }

/-- `GamePak::chrRomRead`. -/
def chrRomRead (b : SysBus) (a : Nat) : Nat :=
  b.chrRom (mapChrRomRead a) % 0x100

/-- `GamePak::chrRomWrite` (performs the store, like `prgRomWrite`). -/
def chrRomWrite (b : SysBus) (a v : Nat) : SysBus :=
  { b with chrRom := upd b.chrRom (mapChrRomWrite a) (v % 0x100) }

/-! ## PPU bus router (NesSystem::ppuBusRead / ppuBusWrite, Nes.cpp) -/

/-- `NesSystem::ppuBusRead`: 0x0000-0x1FFF CHR, 0x2000-0x2FFF VRAM,
0x3F00-0x3FFF palette, otherwise 0. -/
def ppuBusRead (b : SysBus) (a : Nat) : Nat :=
  if a ≤ 0x1FFF then chrRomRead b a
  else if 0x2000 ≤ a ∧ a ≤ 0x2FFF then vramRead b.mirroring b.vramMem a
  else if 0x3F00 ≤ a ∧ a ≤ 0x3FFF then paletteRead b.palette a
  else 0

/-- `NesSystem::ppuBusWrite`, same routing as `ppuBusRead`. -/
def ppuBusWrite (b : SysBus) (a v : Nat) : SysBus :=
  if a ≤ 0x1FFF then chrRomWrite b a v
  else if 0x2000 ≤ a ∧ a ≤ 0x2FFF then { b with vramMem := vramWrite b.mirroring b.vramMem a v }
  else if 0x3F00 ≤ a ∧ a ≤ 0x3FFF then { b with palette := paletteWrite b.palette a v }
  else b

/-! ## PPU register protocol (Ntsc2C02.cpp) -/

/-- `NTSC2C02::controllerWrite`: latch PPUCTRL, low two bits set the
nametable index. -/
def controllerWrite (b : SysBus) (d : Nat) : SysBus :=
  { b with ppu := { b.ppu with ctrl := d % 0x100, nametableIdx := d &&& 0x03 } }

/-- `NTSC2C02::maskWrite`: latch PPUMASK. -/
def maskWrite (b : SysBus) (d : Nat) : SysBus :=
  { b with ppu := { b.ppu with mask := d % 0x100 } }

/-- `NTSC2C02::statusRead`: return `(PPUSTATUS & 0xE0) | (dataBuffer & 0x1F)`,
then clear VBlank (bit 7) and the write toggle. -/
def statusRead (b : SysBus) : Nat × SysBus :=
  ((b.ppu.statusReg &&& 0xE0) ||| (b.ppu.dataBuffer &&& 0x1F),
   { b with ppu := { b.ppu with statusReg := b.ppu.statusReg &&& 0x7F, writeToggle := false } })

/-- `NTSC2C02::scrollWrite`: two-step coarse/fine scroll latch governed by
the write toggle. -/
def scrollWrite (b : SysBus) (d : Nat) : SysBus :=
  if !b.ppu.writeToggle then
    { b with ppu := { b.ppu with coarseX := (d % 0x100) >>> 3, fineX := d &&& 0x07,
                                 writeToggle := true } }
  else
    { b with ppu := { b.ppu with coarseY := (d &&& 0xF8) >>> 3, fineY := d &&& 0x07,
                                 writeToggle := false } }

/-- `NTSC2C02::addressWrite`: first write stores the high six bits into the
latch `t` (bit 14 cleared), second write stores the low byte and copies
`t` into `v`. Toggle `w`. -/
def addressWrite (b : SysBus) (d : Nat) : SysBus :=
  if !b.ppu.writeToggle then
    { b with ppu := { b.ppu with tmpAddr := (b.ppu.tmpAddr &&& 0xFF) ||| ((d &&& 0x3F) <<< 8),
                                 writeToggle := true } }
  else
    let t := (b.ppu.tmpAddr &&& 0x7F00) ||| (d % 0x100)
    { b with ppu := { b.ppu with tmpAddr := t, ppuAddr := t, writeToggle := false } }

/-- Address increment used by `dataWrite`/`dataRead`: 32 when
PPUCTRL.IncrementMode (bit 2) is set, else 1. -/
def vIncrement (ctrl : Nat) : Nat :=
  if ctrl.testBit 2 then 32 else 1

/-- `NTSC2C02::dataWrite`: write through the PPU bus at `v`, then
post-increment `v`. -/
def dataWrite (b : SysBus) (d : Nat) : SysBus :=
  let b1 := ppuBusWrite b b.ppu.ppuAddr d
  { b1 with ppu := { b1.ppu with
      ppuAddr := (b1.ppu.ppuAddr + vIncrement b1.ppu.ctrl) % 0x10000 } }

/-- `NTSC2C02::dataRead`: return the buffered byte and refill the buffer
from `v`; for `v ≥ 0x3F00` return the just-fetched byte directly;
post-increment `v`. -/
def dataRead (b : SysBus) : Nat × SysBus :=
  let fetchedByte := ppuBusRead b b.ppu.ppuAddr
  let data := if b.ppu.ppuAddr ≥ 0x3F00 then fetchedByte else b.ppu.dataBuffer
  (data,
   { b with ppu := { b.ppu with
       dataBuffer := fetchedByte,
       ppuAddr := (b.ppu.ppuAddr + vIncrement b.ppu.ctrl) % 0x10000 } })

/-- `NTSC2C02::cycle`: advance one dot; at the end of a scanline advance the
scanline; entering scanline 241 sets VBlank and, with GenerateNMI (ctrl
bit 7) set, latches a pending NMI on the system; entering scanline 261
wraps to the pre-render line -1, completes the frame and clears VBlank. -/
def ppuCycle (b : SysBus) : SysBus :=
  let p := b.ppu
  let p := { p with cycles := p.cycles + 1 }
  let p := if p.scanline = -1 then { p with frameCompleted := false } else p
  if p.cycles ≥ 341 then
    let p := { p with cycles := 0, scanline := p.scanline + 1 }
    if p.scanline = 241 then
      let p := { p with statusReg := p.statusReg ||| 0x80 }
      { b with ppu := p,
               pendingNmi := if p.ctrl.testBit 7 then true else b.pendingNmi }
    else if p.scanline = 261 then
      { b with ppu := { p with scanline := -1, frameCompleted := true,
                               frameCounter := p.frameCounter + 1,
                               statusReg := p.statusReg &&& 0x7F } }
    else
      { b with ppu := p }
  else
    { b with ppu := p }

/-! ## CPU bus router (NesSystem::cpuBusRead / cpuBusWrite, Nes.cpp)

The register dispatch inside the 0x2000-0x3FFF branch switches on the
exact address (no `& 7` folding in this code). -/

/-- `NesSystem::cpuBusRead`. Reading 0x2002 or 0x2007 mutates the PPU, so
the router returns the byte together with the updated bus. -/
def cpuBusRead (b : SysBus) (a : Nat) : Nat × SysBus :=
  if a ≤ 0x1FFF then (ramRead 0x800 b.ram a, b)
  else if a ≤ 0x3FFF then
    if a = 0x2002 then statusRead b
    else if a = 0x2007 then dataRead b
    else (0, b)
  else if a ≤ 0x4017 then (0, b)   -- APU range: stubbed, falls through to 0
  else if 0x8000 ≤ a ∧ a ≤ 0xFFFF then (prgRomRead b a, b)
  else (0, b)

/-- `NesSystem::cpuBusWrite`. -/
def cpuBusWrite (b : SysBus) (a v : Nat) : SysBus :=
  if a ≤ 0x1FFF then { b with ram := ramWrite 0x800 b.ram a v }
  else if a ≤ 0x3FFF then
    if a = 0x2000 then controllerWrite b v
    else if a = 0x2001 then maskWrite b v
    else if a = 0x2005 then scrollWrite b v
    else if a = 0x2006 then addressWrite b v
    else if a = 0x2007 then dataWrite b v
    else b
  else if a ≤ 0x4017 then b        -- APU range: stubbed
  else if 0x8000 ≤ a ∧ a ≤ 0xFFFF then prgRomWrite b a v
  else b

end NES

namespace NES

/-! ## CPU helpers

Status bit positions (Mos6502.hpp): C=0, Z=1, I=2, D=3, B=4, U=5, V=6, N=7.
`setFlag` mirrors an assignment to one bit of the 8-bit `std::bitset`. -/

/-- Assign one bit of the 8-bit status register. -/
def setFlag (st i : Nat) (b : Bool) : Nat :=
  if b then st ||| (1 <<< i) else st &&& (0xFF ^^^ (1 <<< i))

/-- Set Z and N from an 8-bit result (Z when zero, N from bit 7). -/
def setZN (st v : Nat) : Nat :=
  setFlag (setFlag st 1 (v = 0)) 7 (v.testBit 7)

/-- uint8 subtraction `a - b` reduced mod 256 (used for the N flag of the
compare instructions, where C++ computes `(reg - operand) & 0x80`). -/
def diffByte (a b : Nat) : Nat :=
  (a + 0x100 - b % 0x100) % 0x100

/-- CPU-side bus read: thread the bus through the system state. -/
def busRd (s : Sys) (a : Nat) : Nat × Sys :=
  let r := cpuBusRead s.bus a
  (r.1, { s with bus := r.2 })

/-- CPU-side bus write. -/
def busWr (s : Sys) (a v : Nat) : Sys :=
  { s with bus := cpuBusWrite s.bus a v }

/-- Push a byte: write at `0x0100 + SP`, then decrement SP (uint8 wrap). -/
def pushByte (s : Sys) (v : Nat) : Sys :=
  let s1 := busWr s (0x100 + s.cpu.sp % 0x100) v
  { s1 with cpu := { s1.cpu with sp := (s1.cpu.sp + 0xFF) % 0x100 } }

/-- Pull a byte: increment SP (uint8 wrap), then read at `0x0100 + SP`. -/
def pullByte (s : Sys) : Nat × Sys :=
  let sp1 := (s.cpu.sp + 1) % 0x100
  busRd { s with cpu := { s.cpu with sp := sp1 } } (0x100 + sp1)

/-! ## Addressing modes (AddressingModes.cpp)

Each returns the updated system and the extra-cycle eligibility value. -/

/-- `MOS6502::IMP`. -/
def amIMP (s : Sys) : Sys × Nat := (s, 0)

/-- `MOS6502::ACC` (present in the source but unused by the opcode table). -/
def amACC (s : Sys) : Sys × Nat :=
  ({ s with cpu := { s.cpu with fetched := s.cpu.a } }, 0)

/-- `MOS6502::IMM`: `fetched = read(PC++)`. -/
def amIMM (s : Sys) : Sys × Nat :=
  let r := busRd s s.cpu.pc
  ({ r.2 with cpu := { r.2.cpu with fetched := r.1, pc := (r.2.cpu.pc + 1) % 0x10000 } }, 0)

/-- `MOS6502::ZP0`: `addr = read(PC++); fetched = read(addr)`. -/
def amZP0 (s : Sys) : Sys × Nat :=
  let r1 := busRd s s.cpu.pc
  let s1 := { r1.2 with cpu := { r1.2.cpu with addr := r1.1, pc := (r1.2.cpu.pc + 1) % 0x10000 } }
  let r2 := busRd s1 s1.cpu.addr
  ({ r2.2 with cpu := { r2.2.cpu with fetched := r2.1 } }, 0)

/-- `MOS6502::ZPX`: zero-page address plus X, wrapping within page 0. -/
def amZPX (s : Sys) : Sys × Nat :=
  let r1 := busRd s s.cpu.pc
  let s1 := { r1.2 with cpu := { r1.2.cpu with addr := (r1.1 + r1.2.cpu.x) % 0x100,
                                               pc := (r1.2.cpu.pc + 1) % 0x10000 } }
  let r2 := busRd s1 s1.cpu.addr
  ({ r2.2 with cpu := { r2.2.cpu with fetched := r2.1 } }, 0)

/-- `MOS6502::ZPY`: zero-page address plus Y, wrapping within page 0. -/
def amZPY (s : Sys) : Sys × Nat :=
  let r1 := busRd s s.cpu.pc
  let s1 := { r1.2 with cpu := { r1.2.cpu with addr := (r1.1 + r1.2.cpu.y) % 0x100,
                                               pc := (r1.2.cpu.pc + 1) % 0x10000 } }
  let r2 := busRd s1 s1.cpu.addr
  ({ r2.2 with cpu := { r2.2.cpu with fetched := r2.1 } }, 0)

/-- `MOS6502::REL`: `fetched = read(PC++)`; returns 0x03 so that the
`base + (addrExtra AND instExtra)` rule lets a branch add +1 or +2. -/
def amREL (s : Sys) : Sys × Nat :=
  let r := busRd s s.cpu.pc
  ({ r.2 with cpu := { r.2.cpu with fetched := r.1, pc := (r.2.cpu.pc + 1) % 0x10000 } }, 3)

/-- `MOS6502::ABS`: 16-bit address (lo, hi), then fetch. -/
def amABS (s : Sys) : Sys × Nat :=
  let r1 := busRd s s.cpu.pc
  let s1 := { r1.2 with cpu := { r1.2.cpu with pc := (r1.2.cpu.pc + 1) % 0x10000 } }
  let r2 := busRd s1 s1.cpu.pc
  let s2 := { r2.2 with cpu := { r2.2.cpu with addr := (r2.1 <<< 8) ||| r1.1,
                                               pc := (r2.2.cpu.pc + 1) % 0x10000 } }
  let r3 := busRd s2 s2.cpu.addr
  ({ r3.2 with cpu := { r3.2.cpu with fetched := r3.1 } }, 0)

/-- `MOS6502::ABX`: absolute plus X; +1 eligibility on page cross. -/
def amABX (s : Sys) : Sys × Nat :=
  let r1 := busRd s s.cpu.pc
  let s1 := { r1.2 with cpu := { r1.2.cpu with pc := (r1.2.cpu.pc + 1) % 0x10000 } }
  let r2 := busRd s1 s1.cpu.pc
  let base := (r2.1 <<< 8) ||| r1.1
  let s2 := { r2.2 with cpu := { r2.2.cpu with addr := (base + r2.2.cpu.x) % 0x10000,
                                               pc := (r2.2.cpu.pc + 1) % 0x10000 } }
  let r3 := busRd s2 s2.cpu.addr
  ({ r3.2 with cpu := { r3.2.cpu with fetched := r3.1 } },
   if base &&& 0xFF00 ≠ s2.cpu.addr &&& 0xFF00 then 1 else 0)

/-- `MOS6502::ABY`: absolute plus Y; +1 eligibility on page cross. -/
def amABY (s : Sys) : Sys × Nat :=
  let r1 := busRd s s.cpu.pc
  let s1 := { r1.2 with cpu := { r1.2.cpu with pc := (r1.2.cpu.pc + 1) % 0x10000 } }
  let r2 := busRd s1 s1.cpu.pc
  let base := (r2.1 <<< 8) ||| r1.1
  let s2 := { r2.2 with cpu := { r2.2.cpu with addr := (base + r2.2.cpu.y) % 0x10000,
                                               pc := (r2.2.cpu.pc + 1) % 0x10000 } }
  let r3 := busRd s2 s2.cpu.addr
  ({ r3.2 with cpu := { r3.2.cpu with fetched := r3.1 } },
   if base &&& 0xFF00 ≠ s2.cpu.addr &&& 0xFF00 then 1 else 0)

/-- `MOS6502::IND` (JMP only), with the page-boundary hardware bug: when the
pointer low byte is 0xFF the high byte comes from the same page. -/
def amIND (s : Sys) : Sys × Nat :=
  let r1 := busRd s s.cpu.pc
  let s1 := { r1.2 with cpu := { r1.2.cpu with pc := (r1.2.cpu.pc + 1) % 0x10000 } }
  let r2 := busRd s1 s1.cpu.pc
  let ptr := (r2.1 <<< 8) ||| r1.1
  let s2 := { r2.2 with cpu := { r2.2.cpu with pc := (r2.2.cpu.pc + 1) % 0x10000 } }
  let rHi := if r1.1 = 0xFF then busRd s2 (ptr &&& 0xFF00)
             else busRd s2 ((ptr + 1) % 0x10000)
  let rLo := busRd rHi.2 ptr
  let s3 := { rLo.2 with cpu := { rLo.2.cpu with addr := (rHi.1 <<< 8) ||| rLo.1 } }
  let r3 := busRd s3 s3.cpu.addr
  ({ r3.2 with cpu := { r3.2.cpu with fetched := r3.1 } }, 0)

/-- `MOS6502::IZX`: pointer in page zero indexed by X (page-zero wrap). -/
def amIZX (s : Sys) : Sys × Nat :=
  let r1 := busRd s s.cpu.pc
  let s1 := { r1.2 with cpu := { r1.2.cpu with pc := (r1.2.cpu.pc + 1) % 0x10000 } }
  let rLo := busRd s1 ((r1.1 + s1.cpu.x) &&& 0xFF)
  let rHi := busRd rLo.2 ((r1.1 + rLo.2.cpu.x + 1) &&& 0xFF)
  let s2 := { rHi.2 with cpu := { rHi.2.cpu with addr := (rHi.1 <<< 8) ||| rLo.1 } }
  let r3 := busRd s2 s2.cpu.addr
  ({ r3.2 with cpu := { r3.2.cpu with fetched := r3.1 } }, 0)

/-- `MOS6502::IZY`: pointer in page zero, Y added after; +1 eligibility on
page cross. -/
def amIZY (s : Sys) : Sys × Nat :=
  let r1 := busRd s s.cpu.pc
  let s1 := { r1.2 with cpu := { r1.2.cpu with pc := (r1.2.cpu.pc + 1) % 0x10000 } }
  let rLo := busRd s1 r1.1
  let rHi := busRd rLo.2 ((r1.1 + 1) &&& 0xFF)
  let base := (rHi.1 <<< 8) ||| rLo.1
  let s2 := { rHi.2 with cpu := { rHi.2.cpu with addr := (base + rHi.2.cpu.y) % 0x10000 } }
  let r3 := busRd s2 s2.cpu.addr
  ({ r3.2 with cpu := { r3.2.cpu with fetched := r3.1 } },
   if base &&& 0xFF00 ≠ s2.cpu.addr &&& 0xFF00 then 1 else 0)

end NES

namespace NES

/-! ## Instruction handlers (Instructions.cpp)

Each returns the updated system and the extra-cycle eligibility value. -/

/-- `MOS6502::LDA`. -/
def instrLDA (s : Sys) : Sys × Nat :=
  ({ s with cpu := { s.cpu with a := s.cpu.fetched,
                                status := setZN s.cpu.status s.cpu.fetched } }, 1)

/-- `MOS6502::LDX`. -/
def instrLDX (s : Sys) : Sys × Nat :=
  ({ s with cpu := { s.cpu with x := s.cpu.fetched,
                                status := setZN s.cpu.status s.cpu.fetched } }, 1)

/-- `MOS6502::LDY`. -/
def instrLDY (s : Sys) : Sys × Nat :=
  ({ s with cpu := { s.cpu with y := s.cpu.fetched,
                                status := setZN s.cpu.status s.cpu.fetched } }, 1)

/-- `MOS6502::STA`. -/
def instrSTA (s : Sys) : Sys × Nat := (busWr s s.cpu.addr s.cpu.a, 0)

/-- `MOS6502::STX`. -/
def instrSTX (s : Sys) : Sys × Nat := (busWr s s.cpu.addr s.cpu.x, 0)

/-- `MOS6502::STY`. -/
def instrSTY (s : Sys) : Sys × Nat := (busWr s s.cpu.addr s.cpu.y, 0)

/-- `MOS6502::TAX`. -/
def instrTAX (s : Sys) : Sys × Nat :=
  ({ s with cpu := { s.cpu with x := s.cpu.a, status := setZN s.cpu.status s.cpu.a } }, 0)

/-- `MOS6502::TAY`. -/
def instrTAY (s : Sys) : Sys × Nat :=
  ({ s with cpu := { s.cpu with y := s.cpu.a, status := setZN s.cpu.status s.cpu.a } }, 0)

/-- `MOS6502::TXA`. -/
def instrTXA (s : Sys) : Sys × Nat :=
  ({ s with cpu := { s.cpu with a := s.cpu.x, status := setZN s.cpu.status s.cpu.x } }, 0)

/-- `MOS6502::TYA`. -/
def instrTYA (s : Sys) : Sys × Nat :=
  ({ s with cpu := { s.cpu with a := s.cpu.y, status := setZN s.cpu.status s.cpu.y } }, 0)

/-- `MOS6502::TSX`. -/
def instrTSX (s : Sys) : Sys × Nat :=
  ({ s with cpu := { s.cpu with x := s.cpu.sp, status := setZN s.cpu.status s.cpu.sp } }, 0)

/-- `MOS6502::TXS` (no flags). -/
def instrTXS (s : Sys) : Sys × Nat :=
  ({ s with cpu := { s.cpu with sp := s.cpu.x } }, 0)

/-- `MOS6502::PHA`. -/
def instrPHA (s : Sys) : Sys × Nat := (pushByte s s.cpu.a, 0)

/-- `MOS6502::PHP`: the pushed copy has B and U set (hardware bug). -/
def instrPHP (s : Sys) : Sys × Nat := (pushByte s (s.cpu.status ||| 0x30), 0)

/-- `MOS6502::PLA`. -/
def instrPLA (s : Sys) : Sys × Nat :=
  let r := pullByte s
  ({ r.2 with cpu := { r.2.cpu with a := r.1, status := setZN r.2.cpu.status r.1 } }, 0)

/-- `MOS6502::PLP`: `r_status = bus.read(STACK_PAGE + (++r_SP))` —
the pulled byte is stored verbatim, no bit is masked. -/
def instrPLP (s : Sys) : Sys × Nat :=
  let r := pullByte s
  ({ r.2 with cpu := { r.2.cpu with status := r.1 } }, 0)

/-- `MOS6502::AND`. -/
def instrAND (s : Sys) : Sys × Nat :=
  let v := s.cpu.a &&& s.cpu.fetched
  ({ s with cpu := { s.cpu with a := v, status := setZN s.cpu.status v } }, 1)

/-- `MOS6502::EOR`. -/
def instrEOR (s : Sys) : Sys × Nat :=
  let v := s.cpu.a ^^^ s.cpu.fetched
  ({ s with cpu := { s.cpu with a := v, status := setZN s.cpu.status v } }, 1)

/-- `MOS6502::ORA`. -/
def instrORA (s : Sys) : Sys × Nat :=
  let v := s.cpu.a ||| s.cpu.fetched
  ({ s with cpu := { s.cpu with a := v, status := setZN s.cpu.status v } }, 1)

/-- `MOS6502::BIT`: Z from `A & M`, V from operand bit 6, N from bit 7. -/
def instrBIT (s : Sys) : Sys × Nat :=
  let st := setFlag s.cpu.status 1 (s.cpu.a &&& s.cpu.fetched = 0)
  let st := setFlag st 6 (s.cpu.fetched.testBit 6)
  let st := setFlag st 7 (s.cpu.fetched.testBit 7)
  ({ s with cpu := { s.cpu with status := st } }, 0)

/-- `MOS6502::ADC`: `sum = A + M + C` on 16 bits;
V = `((A ^ sum) & (M ^ sum)) & 0x80`, C from `sum > 0xFF`. -/
def instrADC (s : Sys) : Sys × Nat :=
  let sum := s.cpu.a + s.cpu.fetched + (if s.cpu.status.testBit 0 then 1 else 0)
  let st := setFlag s.cpu.status 6 (((s.cpu.a ^^^ sum) &&& (s.cpu.fetched ^^^ sum)) &&& 0x80 ≠ 0)
  let st := setFlag st 0 (sum > 0xFF)
  let st := setFlag st 1 (sum % 0x100 = 0)
  let st := setFlag st 7 (sum.testBit 7)
  ({ s with cpu := { s.cpu with a := sum % 0x100, status := st } }, 1)

/-- `MOS6502::SBC`: invert the operand byte and reuse ADC. -/
def instrSBC (s : Sys) : Sys × Nat :=
  instrADC { s with cpu := { s.cpu with fetched := s.cpu.fetched ^^^ 0xFF } }

/-- `MOS6502::CMP`. -/
def instrCMP (s : Sys) : Sys × Nat :=
  let st := setFlag s.cpu.status 0 (s.cpu.a ≥ s.cpu.fetched)
  let st := setFlag st 1 (s.cpu.a = s.cpu.fetched)
  let st := setFlag st 7 ((diffByte s.cpu.a s.cpu.fetched).testBit 7)
  ({ s with cpu := { s.cpu with status := st } }, 1)

/-- `MOS6502::CPX`. -/
def instrCPX (s : Sys) : Sys × Nat :=
  let st := setFlag s.cpu.status 0 (s.cpu.x ≥ s.cpu.fetched)
  let st := setFlag st 1 (s.cpu.x = s.cpu.fetched)
  let st := setFlag st 7 ((diffByte s.cpu.x s.cpu.fetched).testBit 7)
  ({ s with cpu := { s.cpu with status := st } }, 0)

/-- `MOS6502::CPY`. -/
def instrCPY (s : Sys) : Sys × Nat :=
  let st := setFlag s.cpu.status 0 (s.cpu.y ≥ s.cpu.fetched)
  let st := setFlag st 1 (s.cpu.y = s.cpu.fetched)
  let st := setFlag st 7 ((diffByte s.cpu.y s.cpu.fetched).testBit 7)
  ({ s with cpu := { s.cpu with status := st } }, 0)

/-- `MOS6502::INC`: increment the scratch operand, write it back. -/
def instrINC (s : Sys) : Sys × Nat :=
  let v := (s.cpu.fetched + 1) % 0x100
  let s1 := busWr { s with cpu := { s.cpu with fetched := v } } s.cpu.addr v
  ({ s1 with cpu := { s1.cpu with status := setZN s1.cpu.status v } }, 0)

/-- `MOS6502::INX`. -/
def instrINX (s : Sys) : Sys × Nat :=
  let v := (s.cpu.x + 1) % 0x100
  ({ s with cpu := { s.cpu with x := v, status := setZN s.cpu.status v } }, 0)

/-- `MOS6502::INY`. -/
def instrINY (s : Sys) : Sys × Nat :=
  let v := (s.cpu.y + 1) % 0x100
  ({ s with cpu := { s.cpu with y := v, status := setZN s.cpu.status v } }, 0)

/-- `MOS6502::DEC`: decrement the scratch operand, write it back. -/
def instrDEC (s : Sys) : Sys × Nat :=
  let v := (s.cpu.fetched + 0xFF) % 0x100
  let s1 := busWr { s with cpu := { s.cpu with fetched := v } } s.cpu.addr v
  ({ s1 with cpu := { s1.cpu with status := setZN s1.cpu.status v } }, 0)

/-- `MOS6502::DEX`. -/
def instrDEX (s : Sys) : Sys × Nat :=
  let v := (s.cpu.x + 0xFF) % 0x100
  ({ s with cpu := { s.cpu with x := v, status := setZN s.cpu.status v } }, 0)

/-- `MOS6502::DEY`. -/
def instrDEY (s : Sys) : Sys × Nat :=
  let v := (s.cpu.y + 0xFF) % 0x100
  ({ s with cpu := { s.cpu with y := v, status := setZN s.cpu.status v } }, 0)

/-- `MOS6502::ASL` (memory): shift left, old bit 7 to C. -/
def instrASL (s : Sys) : Sys × Nat :=
  let oldC := s.cpu.fetched.testBit 7
  let v := (s.cpu.fetched <<< 1) % 0x100
  let s1 := busWr { s with cpu := { s.cpu with fetched := v } } s.cpu.addr v
  ({ s1 with cpu := { s1.cpu with status := setZN (setFlag s1.cpu.status 0 oldC) v } }, 0)

/-- `MOS6502::ASA` (ASL on the accumulator). -/
def instrASA (s : Sys) : Sys × Nat :=
  let oldC := s.cpu.a.testBit 7
  let v := (s.cpu.a <<< 1) % 0x100
  ({ s with cpu := { s.cpu with a := v, status := setZN (setFlag s.cpu.status 0 oldC) v } }, 0)

/-- `MOS6502::LSR` (memory): shift right, old bit 0 to C. -/
def instrLSR (s : Sys) : Sys × Nat :=
  let oldC := s.cpu.fetched.testBit 0
  let v := (s.cpu.fetched >>> 1) % 0x100
  let s1 := busWr { s with cpu := { s.cpu with fetched := v } } s.cpu.addr v
  ({ s1 with cpu := { s1.cpu with status := setZN (setFlag s1.cpu.status 0 oldC) v } }, 0)

/-- `MOS6502::LSA` (LSR on the accumulator). -/
def instrLSA (s : Sys) : Sys × Nat :=
  let oldC := s.cpu.a.testBit 0
  let v := (s.cpu.a >>> 1) % 0x100
  ({ s with cpu := { s.cpu with a := v, status := setZN (setFlag s.cpu.status 0 oldC) v } }, 0)

/-- `MOS6502::ROL` (memory): shift left filling bit 0 from C. -/
def instrROL (s : Sys) : Sys × Nat :=
  let oldC := s.cpu.fetched.testBit 7
  let v := ((s.cpu.fetched <<< 1) % 0x100) ||| (if s.cpu.status.testBit 0 then 1 else 0)
  let s1 := busWr { s with cpu := { s.cpu with fetched := v } } s.cpu.addr v
  ({ s1 with cpu := { s1.cpu with status := setZN (setFlag s1.cpu.status 0 oldC) v } }, 0)

/-- `MOS6502::ROA` (ROL on the accumulator). -/
def instrROA (s : Sys) : Sys × Nat :=
  let oldC := s.cpu.a.testBit 7
  let v := ((s.cpu.a <<< 1) % 0x100) ||| (if s.cpu.status.testBit 0 then 1 else 0)
  ({ s with cpu := { s.cpu with a := v, status := setZN (setFlag s.cpu.status 0 oldC) v } }, 0)

/-- `MOS6502::ROR` (memory): shift right filling bit 7 from C. -/
def instrROR (s : Sys) : Sys × Nat :=
  let oldC := s.cpu.fetched.testBit 0
  let v := ((s.cpu.fetched >>> 1) % 0x100) ||| ((if s.cpu.status.testBit 0 then 1 else 0) <<< 7)
  let s1 := busWr { s with cpu := { s.cpu with fetched := v } } s.cpu.addr v
  ({ s1 with cpu := { s1.cpu with status := setZN (setFlag s1.cpu.status 0 oldC) v } }, 0)

/-- `MOS6502::RAA` (ROR on the accumulator). -/
def instrRAA (s : Sys) : Sys × Nat :=
  let oldC := s.cpu.a.testBit 0
  let v := ((s.cpu.a >>> 1) % 0x100) ||| ((if s.cpu.status.testBit 0 then 1 else 0) <<< 7)
  ({ s with cpu := { s.cpu with a := v, status := setZN (setFlag s.cpu.status 0 oldC) v } }, 0)

/-- `MOS6502::JMP`. -/
def instrJMP (s : Sys) : Sys × Nat :=
  ({ s with cpu := { s.cpu with pc := s.cpu.addr } }, 0)

/-- `MOS6502::JSR`: push `PC - 1` high then low, jump. -/
def instrJSR (s : Sys) : Sys × Nat :=
  let ret := (s.cpu.pc + 0xFFFF) % 0x10000
  let s1 := pushByte s ((ret >>> 8) &&& 0xFF)
  let s2 := pushByte s1 (ret &&& 0xFF)
  ({ s2 with cpu := { s2.cpu with pc := s2.cpu.addr } }, 0)

/-- `MOS6502::RTS`: pull low then high, add one. -/
def instrRTS (s : Sys) : Sys × Nat :=
  let rLo := pullByte s
  let rHi := pullByte rLo.2
  ({ rHi.2 with cpu := { rHi.2.cpu with pc := (((rHi.1 <<< 8) ||| rLo.1) + 1) % 0x10000 } }, 0)

/-- Shared body of the eight branch handlers: when the condition holds,
add the signed 8-bit offset to PC; return +1, and +2 when the new PC is on
a different page than the pre-branch PC. -/
def doBranch (s : Sys) (cond : Bool) : Sys × Nat :=
  if cond then
    let oldPC := s.cpu.pc
    let newPC := (oldPC + (if s.cpu.fetched < 0x80 then s.cpu.fetched
                           else s.cpu.fetched + 0xFF00)) % 0x10000
    ({ s with cpu := { s.cpu with pc := newPC } },
     1 + (if newPC &&& 0xFF00 ≠ oldPC &&& 0xFF00 then 1 else 0))
  else (s, 0)

/-- `MOS6502::BCC`. -/
def instrBCC (s : Sys) : Sys × Nat := doBranch s (!s.cpu.status.testBit 0)

/-- `MOS6502::BCS`. -/
def instrBCS (s : Sys) : Sys × Nat := doBranch s (s.cpu.status.testBit 0)

/-- `MOS6502::BNE`. -/
def instrBNE (s : Sys) : Sys × Nat := doBranch s (!s.cpu.status.testBit 1)

/-- `MOS6502::BEQ`. -/
def instrBEQ (s : Sys) : Sys × Nat := doBranch s (s.cpu.status.testBit 1)

/-- `MOS6502::BPL`. -/
def instrBPL (s : Sys) : Sys × Nat := doBranch s (!s.cpu.status.testBit 7)

/-- `MOS6502::BMI`. -/
def instrBMI (s : Sys) : Sys × Nat := doBranch s (s.cpu.status.testBit 7)

/-- `MOS6502::BVC`. -/
def instrBVC (s : Sys) : Sys × Nat := doBranch s (!s.cpu.status.testBit 6)

/-- `MOS6502::BVS`. -/
def instrBVS (s : Sys) : Sys × Nat := doBranch s (s.cpu.status.testBit 6)

/-- `MOS6502::CLC`. -/
def instrCLC (s : Sys) : Sys × Nat :=
  ({ s with cpu := { s.cpu with status := setFlag s.cpu.status 0 false } }, 0)

/-- `MOS6502::CLD`. -/
def instrCLD (s : Sys) : Sys × Nat :=
  ({ s with cpu := { s.cpu with status := setFlag s.cpu.status 3 false } }, 0)

/-- `MOS6502::CLI`. -/
def instrCLI (s : Sys) : Sys × Nat :=
  ({ s with cpu := { s.cpu with status := setFlag s.cpu.status 2 false } }, 0)

/-- `MOS6502::CLV`. -/
def instrCLV (s : Sys) : Sys × Nat :=
  ({ s with cpu := { s.cpu with status := setFlag s.cpu.status 6 false } }, 0)

/-- `MOS6502::SEC`. -/
def instrSEC (s : Sys) : Sys × Nat :=
  ({ s with cpu := { s.cpu with status := setFlag s.cpu.status 0 true } }, 0)

/-- `MOS6502::SED`. -/
def instrSED (s : Sys) : Sys × Nat :=
  ({ s with cpu := { s.cpu with status := setFlag s.cpu.status 3 true } }, 0)

/-- `MOS6502::SEI`. -/
def instrSEI (s : Sys) : Sys × Nat :=
  ({ s with cpu := { s.cpu with status := setFlag s.cpu.status 2 true } }, 0)

/-- `MOS6502::irq` (Mos6502.cpp): only when I is clear — push PC (high,
low), set B=0, U=1, I=1, push the status byte, load the vector at
0xFFFE/0xFFFF, set the 7-cycle latency. -/
def mosIrq (s : Sys) : Sys :=
  if !s.cpu.status.testBit 2 then
    let s1 := pushByte s ((s.cpu.pc >>> 8) &&& 0xFF)
    let s2 := pushByte s1 (s1.cpu.pc &&& 0xFF)
    let st := setFlag (setFlag (setFlag s2.cpu.status 4 false) 5 true) 2 true
    let s3 := pushByte { s2 with cpu := { s2.cpu with status := st } } st
    let rHi := busRd s3 0xFFFF
    let rLo := busRd rHi.2 0xFFFE
    { rLo.2 with cpu := { rLo.2.cpu with pc := (rHi.1 <<< 8) ||| rLo.1, cycles := 7 } }
  else s

/-- `MOS6502::nmi` (Mos6502.cpp): unconditional — push PC (high, low),
set B=0, U=1, I=1, push the status byte, load the vector at 0xFFFA/0xFFFB,
set the 8-cycle latency. There is no check of the remaining-cycle counter. -/
def mosNmi (s : Sys) : Sys :=
  let s1 := pushByte s ((s.cpu.pc >>> 8) &&& 0xFF)
  let s2 := pushByte s1 (s1.cpu.pc &&& 0xFF)
  let st := setFlag (setFlag (setFlag s2.cpu.status 4 false) 5 true) 2 true
  let s3 := pushByte { s2 with cpu := { s2.cpu with status := st } } st
  let rHi := busRd s3 0xFFFB
  let rLo := busRd rHi.2 0xFFFA
  { rLo.2 with cpu := { rLo.2.cpu with pc := (rHi.1 <<< 8) ||| rLo.1, cycles := 8 } }

/-- `MOS6502::BRK`: clear I, then run the IRQ sequence (which therefore
always fires). -/
def instrBRK (s : Sys) : Sys × Nat :=
  (mosIrq { s with cpu := { s.cpu with status := setFlag s.cpu.status 2 false } }, 0)

/-- `MOS6502::NOP`. -/
def instrNOP (s : Sys) : Sys × Nat := (s, 1)

/-- `MOS6502::RTI`: pull status then clear B and U in the live register,
then pull PC (low, high); no increment. -/
def instrRTI (s : Sys) : Sys × Nat :=
  let r := pullByte s
  let st := setFlag (setFlag r.1 4 false) 5 false
  let s1 := { r.2 with cpu := { r.2.cpu with status := st } }
  let rLo := pullByte s1
  let rHi := pullByte rLo.2
  ({ rHi.2 with cpu := { rHi.2.cpu with pc := (rHi.1 <<< 8) ||| rLo.1 } }, 0)

/-- `MOS6502::LAX` (unofficial). -/
def instrLAX (s : Sys) : Sys × Nat :=
  ({ s with cpu := { s.cpu with a := s.cpu.fetched, x := s.cpu.fetched,
                                status := setZN s.cpu.status s.cpu.fetched } }, 1)

/-- `MOS6502::SAX` (unofficial): store `A & X`. -/
def instrSAX (s : Sys) : Sys × Nat := (busWr s s.cpu.addr (s.cpu.a &&& s.cpu.x), 0)

/-- `MOS6502::DCP` (unofficial): decrement memory then compare with A. -/
def instrDCP (s : Sys) : Sys × Nat :=
  let v := (s.cpu.fetched + 0xFF) % 0x100
  let s1 := busWr { s with cpu := { s.cpu with fetched := v } } s.cpu.addr v
  let st := setFlag s1.cpu.status 0 (s1.cpu.a ≥ v)
  let st := setFlag st 1 (s1.cpu.a = v)
  let st := setFlag st 7 ((diffByte s1.cpu.a v).testBit 7)
  ({ s1 with cpu := { s1.cpu with status := st } }, 0)

/-- `MOS6502::ISC` (unofficial): increment memory then SBC; no extra cycles. -/
def instrISC (s : Sys) : Sys × Nat :=
  let v := (s.cpu.fetched + 1) % 0x100
  let s1 := busWr { s with cpu := { s.cpu with fetched := v } } s.cpu.addr v
  ((instrSBC s1).1, 0)

/-- `MOS6502::SLO` (unofficial): shift memory left then OR into A. -/
def instrSLO (s : Sys) : Sys × Nat :=
  let oldC := s.cpu.fetched.testBit 7
  let v := (s.cpu.fetched <<< 1) % 0x100
  let s1 := busWr { s with cpu := { s.cpu with fetched := v } } s.cpu.addr v
  let a := s1.cpu.a ||| v
  ({ s1 with cpu := { s1.cpu with a := a,
                                  status := setZN (setFlag s1.cpu.status 0 oldC) a } }, 0)

/-- `MOS6502::RLA` (unofficial): rotate memory left then AND into A. -/
def instrRLA (s : Sys) : Sys × Nat :=
  let oldC := s.cpu.fetched.testBit 7
  let v := ((s.cpu.fetched <<< 1) % 0x100) ||| (if s.cpu.status.testBit 0 then 1 else 0)
  let s1 := busWr { s with cpu := { s.cpu with fetched := v } } s.cpu.addr v
  let a := s1.cpu.a &&& v
  ({ s1 with cpu := { s1.cpu with a := a,
                                  status := setZN (setFlag s1.cpu.status 0 oldC) a } }, 0)

/-- `MOS6502::SRE` (unofficial): shift memory right then XOR into A. -/
def instrSRE (s : Sys) : Sys × Nat :=
  let oldC := s.cpu.fetched.testBit 0
  let v := (s.cpu.fetched >>> 1) % 0x100
  let s1 := busWr { s with cpu := { s.cpu with fetched := v } } s.cpu.addr v
  let a := s1.cpu.a ^^^ v
  ({ s1 with cpu := { s1.cpu with a := a,
                                  status := setZN (setFlag s1.cpu.status 0 oldC) a } }, 0)

/-- `MOS6502::RRA` (unofficial): rotate memory right, then add with the
rotated-out bit as carry. -/
def instrRRA (s : Sys) : Sys × Nat :=
  let oldC := s.cpu.fetched.testBit 0
  let v := ((s.cpu.fetched >>> 1) % 0x100) ||| ((if s.cpu.status.testBit 0 then 1 else 0) <<< 7)
  let s1 := busWr { s with cpu := { s.cpu with fetched := v } } s.cpu.addr v
  let sum := s1.cpu.a + v + (if oldC then 1 else 0)
  let st := setFlag s1.cpu.status 6 (((s1.cpu.a ^^^ sum) &&& (v ^^^ sum)) &&& 0x80 ≠ 0)
  let st := setFlag st 0 (sum > 0xFF)
  let st := setFlag st 1 (sum % 0x100 = 0)
  let st := setFlag st 7 (sum.testBit 7)
  ({ s1 with cpu := { s1.cpu with a := sum % 0x100, status := st } }, 0)

end NES

namespace NES

/-- The 6502 mnemonics of the opcode table (Mos6502.hpp), including the
unofficial ones and the illegal-opcode trap `XXX`. The accumulator
variants ASA/LSA/ROA/RAA are distinct handlers, as in the source. -/
inductive Mn where
  | LDA | LDX | LDY | STA | STX | STY
  | TAX | TAY | TXA | TYA | TSX | TXS
  | PHA | PHP | PLA | PLP
  | AND | EOR | ORA | BIT
  | ADC | SBC | CMP | CPX | CPY
  | INC | INX | INY | DEC | DEX | DEY
  | ASL | ASA | LSR | LSA | ROL | ROA | ROR | RAA
  | JMP | JSR | RTS
  | BCC | BCS | BNE | BEQ | BPL | BMI | BVC | BVS
  | CLC | CLD | CLI | CLV | SEC | SED | SEI
  | BRK | NOP | RTI
  | LAX | SAX | DCP | ISC | SLO | RLA | SRE | RRA
  | XXX
  deriving DecidableEq, Repr

/-- The addressing modes (Mos6502.hpp); ACC exists in the source but is
never referenced by the opcode table. -/
inductive Am where
  | IMP | ACC | IMM | ZP0 | ZPX | ZPY | REL
  | ABS | ABX | ABY | IND | IZX | IZY
  deriving DecidableEq, Repr

/-- Dispatch an addressing-mode handler. -/
def runAm : Am → Sys → Sys × Nat
  | .IMP => amIMP
  | .ACC => amACC
  | .IMM => amIMM
  | .ZP0 => amZP0
  | .ZPX => amZPX
  | .ZPY => amZPY
  | .REL => amREL
  | .ABS => amABS
  | .ABX => amABX
  | .ABY => amABY
  | .IND => amIND
  | .IZX => amIZX
  | .IZY => amIZY

/-- Dispatch an instruction handler. `XXX` is
`exit(1)` in the source (a fatal abort), modelled as `none`. -/
def runMn : Mn → Sys → Option (Sys × Nat)
  | .LDA, s => some (instrLDA s)
  | .LDX, s => some (instrLDX s)
  | .LDY, s => some (instrLDY s)
  | .STA, s => some (instrSTA s)
  | .STX, s => some (instrSTX s)
  | .STY, s => some (instrSTY s)
  | .TAX, s => some (instrTAX s)
  | .TAY, s => some (instrTAY s)
  | .TXA, s => some (instrTXA s)
  | .TYA, s => some (instrTYA s)
  | .TSX, s => some (instrTSX s)
  | .TXS, s => some (instrTXS s)
  | .PHA, s => some (instrPHA s)
  | .PHP, s => some (instrPHP s)
  | .PLA, s => some (instrPLA s)
  | .PLP, s => some (instrPLP s)
  | .AND, s => some (instrAND s)
  | .EOR, s => some (instrEOR s)
  | .ORA, s => some (instrORA s)
  | .BIT, s => some (instrBIT s)
  | .ADC, s => some (instrADC s)
  | .SBC, s => some (instrSBC s)
  | .CMP, s => some (instrCMP s)
  | .CPX, s => some (instrCPX s)
  | .CPY, s => some (instrCPY s)
  | .INC, s => some (instrINC s)
  | .INX, s => some (instrINX s)
  | .INY, s => some (instrINY s)
  | .DEC, s => some (instrDEC s)
  | .DEX, s => some (instrDEX s)
  | .DEY, s => some (instrDEY s)
  | .ASL, s => some (instrASL s)
  | .ASA, s => some (instrASA s)
  | .LSR, s => some (instrLSR s)
  | .LSA, s => some (instrLSA s)
  | .ROL, s => some (instrROL s)
  | .ROA, s => some (instrROA s)
  | .ROR, s => some (instrROR s)
  | .RAA, s => some (instrRAA s)
  | .JMP, s => some (instrJMP s)
  | .JSR, s => some (instrJSR s)
  | .RTS, s => some (instrRTS s)
  | .BCC, s => some (instrBCC s)
  | .BCS, s => some (instrBCS s)
  | .BNE, s => some (instrBNE s)
  | .BEQ, s => some (instrBEQ s)
  | .BPL, s => some (instrBPL s)
  | .BMI, s => some (instrBMI s)
  | .BVC, s => some (instrBVC s)
  | .BVS, s => some (instrBVS s)
  | .CLC, s => some (instrCLC s)
  | .CLD, s => some (instrCLD s)
  | .CLI, s => some (instrCLI s)
  | .CLV, s => some (instrCLV s)
  | .SEC, s => some (instrSEC s)
  | .SED, s => some (instrSED s)
  | .SEI, s => some (instrSEI s)
  | .BRK, s => some (instrBRK s)
  | .NOP, s => some (instrNOP s)
  | .RTI, s => some (instrRTI s)
  | .LAX, s => some (instrLAX s)
  | .SAX, s => some (instrSAX s)
  | .DCP, s => some (instrDCP s)
  | .ISC, s => some (instrISC s)
  | .SLO, s => some (instrSLO s)
  | .RLA, s => some (instrRLA s)
  | .SRE, s => some (instrSRE s)
  | .RRA, s => some (instrRRA s)
  | .XXX, _ => none

/-- One row of the 256-entry opcode table: mnemonic, addressing mode,
base cycles. -/
structure OpEntry where
  mn : Mn
  am : Am
  baseCycles : Nat
  deriving DecidableEq, Repr

set_option maxHeartbeats 3200000 in
/-- The opcode lookup table of Mos6502.hpp. Opcodes not listed are exactly
the `{"XXX", op, XXX, IMP, 0}` rows of the source table, produced here by
the default arm. -/
def opcodeLUT : Nat → OpEntry
  | 0x00 => ⟨.BRK, .IMP, 7⟩
  | 0x01 => ⟨.ORA, .IZX, 6⟩
  | 0x03 => ⟨.SLO, .IZX, 8⟩
  | 0x04 => ⟨.NOP, .ZP0, 3⟩
  | 0x05 => ⟨.ORA, .ZP0, 3⟩
  | 0x06 => ⟨.ASL, .ZP0, 5⟩
  | 0x07 => ⟨.SLO, .ZP0, 5⟩
  | 0x08 => ⟨.PHP, .IMP, 3⟩
  | 0x09 => ⟨.ORA, .IMM, 2⟩
  | 0x0A => ⟨.ASA, .IMP, 2⟩
  | 0x0C => ⟨.NOP, .ABS, 4⟩
  | 0x0D => ⟨.ORA, .ABS, 4⟩
  | 0x0E => ⟨.ASL, .ABS, 6⟩
  | 0x0F => ⟨.SLO, .ABS, 6⟩
  | 0x10 => ⟨.BPL, .REL, 2⟩
  | 0x11 => ⟨.ORA, .IZY, 5⟩
  | 0x13 => ⟨.SLO, .IZY, 8⟩
  | 0x14 => ⟨.NOP, .ZPX, 4⟩
  | 0x15 => ⟨.ORA, .ZPX, 4⟩
  | 0x16 => ⟨.ASL, .ZPX, 6⟩
  | 0x17 => ⟨.SLO, .ZPX, 6⟩
  | 0x18 => ⟨.CLC, .IMP, 2⟩
  | 0x19 => ⟨.ORA, .ABY, 4⟩
  | 0x1A => ⟨.NOP, .IMP, 2⟩
  | 0x1B => ⟨.SLO, .ABY, 7⟩
  | 0x1C => ⟨.NOP, .ABX, 4⟩
  | 0x1D => ⟨.ORA, .ABX, 4⟩
  | 0x1E => ⟨.ASL, .ABX, 7⟩
  | 0x1F => ⟨.SLO, .ABX, 7⟩
  | 0x20 => ⟨.JSR, .ABS, 6⟩
  | 0x21 => ⟨.AND, .IZX, 6⟩
  | 0x23 => ⟨.RLA, .IZX, 8⟩
  | 0x24 => ⟨.BIT, .ZP0, 3⟩
  | 0x25 => ⟨.AND, .ZP0, 3⟩
  | 0x26 => ⟨.ROL, .ZP0, 5⟩
  | 0x27 => ⟨.RLA, .ZP0, 5⟩
  | 0x28 => ⟨.PLP, .IMP, 4⟩
  | 0x29 => ⟨.AND, .IMM, 2⟩
  | 0x2A => ⟨.ROA, .IMP, 2⟩
  | 0x2C => ⟨.BIT, .ABS, 4⟩
  | 0x2D => ⟨.AND, .ABS, 4⟩
  | 0x2E => ⟨.ROL, .ABS, 6⟩
  | 0x2F => ⟨.RLA, .ABS, 6⟩
  | 0x30 => ⟨.BMI, .REL, 2⟩
  | 0x31 => ⟨.AND, .IZY, 5⟩
  | 0x33 => ⟨.RLA, .IZY, 8⟩
  | 0x34 => ⟨.NOP, .ZPX, 4⟩
  | 0x35 => ⟨.AND, .ZPX, 4⟩
  | 0x36 => ⟨.ROL, .ZPX, 6⟩
  | 0x37 => ⟨.RLA, .ZPX, 6⟩
  | 0x38 => ⟨.SEC, .IMP, 2⟩
  | 0x39 => ⟨.AND, .ABY, 4⟩
  | 0x3A => ⟨.NOP, .IMP, 2⟩
  | 0x3B => ⟨.RLA, .ABY, 7⟩
  | 0x3C => ⟨.NOP, .ABX, 4⟩
  | 0x3D => ⟨.AND, .ABX, 4⟩
  | 0x3E => ⟨.ROL, .ABX, 7⟩
  | 0x3F => ⟨.RLA, .ABX, 7⟩
  | 0x40 => ⟨.RTI, .IMP, 6⟩
  | 0x41 => ⟨.EOR, .IZX, 6⟩
  | 0x43 => ⟨.SRE, .IZX, 8⟩
  | 0x44 => ⟨.NOP, .ZP0, 3⟩
  | 0x45 => ⟨.EOR, .ZP0, 3⟩
  | 0x46 => ⟨.LSR, .ZP0, 5⟩
  | 0x47 => ⟨.SRE, .ZP0, 5⟩
  | 0x48 => ⟨.PHA, .IMP, 3⟩
  | 0x49 => ⟨.EOR, .IMM, 2⟩
  | 0x4A => ⟨.LSA, .IMP, 2⟩
  | 0x4C => ⟨.JMP, .ABS, 3⟩
  | 0x4D => ⟨.EOR, .ABS, 4⟩
  | 0x4E => ⟨.LSR, .ABS, 6⟩
  | 0x4F => ⟨.SRE, .ABS, 6⟩
  | 0x50 => ⟨.BVC, .REL, 2⟩
  | 0x51 => ⟨.EOR, .IZY, 5⟩
  | 0x53 => ⟨.SRE, .IZY, 8⟩
  | 0x54 => ⟨.NOP, .ZPX, 4⟩
  | 0x55 => ⟨.EOR, .ZPX, 4⟩
  | 0x56 => ⟨.LSR, .ZPX, 6⟩
  | 0x57 => ⟨.SRE, .ZPX, 6⟩
  | 0x58 => ⟨.CLI, .IMP, 2⟩
  | 0x59 => ⟨.EOR, .ABY, 4⟩
  | 0x5A => ⟨.NOP, .IMP, 2⟩
  | 0x5B => ⟨.SRE, .ABY, 7⟩
  | 0x5C => ⟨.NOP, .ABX, 4⟩
  | 0x5D => ⟨.EOR, .ABX, 4⟩
  | 0x5E => ⟨.LSR, .ABX, 7⟩
  | 0x5F => ⟨.SRE, .ABX, 7⟩
  | 0x60 => ⟨.RTS, .IMP, 6⟩
  | 0x61 => ⟨.ADC, .IZX, 6⟩
  | 0x63 => ⟨.RRA, .IZX, 8⟩
  | 0x64 => ⟨.NOP, .ZP0, 3⟩
  | 0x65 => ⟨.ADC, .ZP0, 3⟩
  | 0x66 => ⟨.ROR, .ZP0, 5⟩
  | 0x67 => ⟨.RRA, .ZP0, 5⟩
  | 0x68 => ⟨.PLA, .IMP, 4⟩
  | 0x69 => ⟨.ADC, .IMM, 2⟩
  | 0x6A => ⟨.RAA, .IMP, 2⟩
  | 0x6C => ⟨.JMP, .IND, 5⟩
  | 0x6D => ⟨.ADC, .ABS, 4⟩
  | 0x6E => ⟨.ROR, .ABS, 6⟩
  | 0x6F => ⟨.RRA, .ABS, 6⟩
  | 0x70 => ⟨.BVS, .REL, 2⟩
  | 0x71 => ⟨.ADC, .IZY, 5⟩
  | 0x73 => ⟨.RRA, .IZY, 8⟩
  | 0x74 => ⟨.NOP, .ZPX, 4⟩
  | 0x75 => ⟨.ADC, .ZPX, 4⟩
  | 0x76 => ⟨.ROR, .ZPX, 6⟩
  | 0x77 => ⟨.RRA, .ZPX, 6⟩
  | 0x78 => ⟨.SEI, .IMP, 2⟩
  | 0x79 => ⟨.ADC, .ABY, 4⟩
  | 0x7A => ⟨.NOP, .IMP, 2⟩
  | 0x7B => ⟨.RRA, .ABY, 7⟩
  | 0x7C => ⟨.NOP, .ABX, 4⟩
  | 0x7D => ⟨.ADC, .ABX, 4⟩
  | 0x7E => ⟨.ROR, .ABX, 7⟩
  | 0x7F => ⟨.RRA, .ABX, 7⟩
  | 0x80 => ⟨.NOP, .IMM, 2⟩
  | 0x81 => ⟨.STA, .IZX, 6⟩
  | 0x83 => ⟨.SAX, .IZX, 6⟩
  | 0x84 => ⟨.STY, .ZP0, 3⟩
  | 0x85 => ⟨.STA, .ZP0, 3⟩
  | 0x86 => ⟨.STX, .ZP0, 3⟩
  | 0x87 => ⟨.SAX, .ZP0, 3⟩
  | 0x88 => ⟨.DEY, .IMP, 2⟩
  | 0x8A => ⟨.TXA, .IMP, 2⟩
  | 0x8C => ⟨.STY, .ABS, 4⟩
  | 0x8D => ⟨.STA, .ABS, 4⟩
  | 0x8E => ⟨.STX, .ABS, 4⟩
  | 0x8F => ⟨.SAX, .ABS, 4⟩
  | 0x90 => ⟨.BCC, .REL, 2⟩
  | 0x91 => ⟨.STA, .IZY, 6⟩
  | 0x94 => ⟨.STY, .ZPX, 4⟩
  | 0x95 => ⟨.STA, .ZPX, 4⟩
  | 0x96 => ⟨.STX, .ZPY, 4⟩
  | 0x97 => ⟨.SAX, .ZPY, 4⟩
  | 0x98 => ⟨.TYA, .IMP, 2⟩
  | 0x99 => ⟨.STA, .ABY, 5⟩
  | 0x9A => ⟨.TXS, .IMP, 2⟩
  | 0x9D => ⟨.STA, .ABX, 5⟩
  | 0xA0 => ⟨.LDY, .IMM, 2⟩
  | 0xA1 => ⟨.LDA, .IZX, 6⟩
  | 0xA2 => ⟨.LDX, .IMM, 2⟩
  | 0xA3 => ⟨.LAX, .IZX, 6⟩
  | 0xA4 => ⟨.LDY, .ZP0, 3⟩
  | 0xA5 => ⟨.LDA, .ZP0, 3⟩
  | 0xA6 => ⟨.LDX, .ZP0, 3⟩
  | 0xA7 => ⟨.LAX, .ZP0, 3⟩
  | 0xA8 => ⟨.TAY, .IMP, 2⟩
  | 0xA9 => ⟨.LDA, .IMM, 2⟩
  | 0xAA => ⟨.TAX, .IMP, 2⟩
  | 0xAB => ⟨.LAX, .IMM, 2⟩
  | 0xAC => ⟨.LDY, .ABS, 4⟩
  | 0xAD => ⟨.LDA, .ABS, 4⟩
  | 0xAE => ⟨.LDX, .ABS, 4⟩
  | 0xAF => ⟨.LAX, .ABS, 4⟩
  | 0xB0 => ⟨.BCS, .REL, 2⟩
  | 0xB1 => ⟨.LDA, .IZY, 5⟩
  | 0xB3 => ⟨.LAX, .IZY, 5⟩
  | 0xB4 => ⟨.LDY, .ZPX, 4⟩
  | 0xB5 => ⟨.LDA, .ZPX, 4⟩
  | 0xB6 => ⟨.LDX, .ZPY, 4⟩
  | 0xB7 => ⟨.LAX, .ZPY, 4⟩
  | 0xB8 => ⟨.CLV, .IMP, 2⟩
  | 0xB9 => ⟨.LDA, .ABY, 4⟩
  | 0xBA => ⟨.TSX, .IMP, 2⟩
  | 0xBC => ⟨.LDY, .ABX, 4⟩
  | 0xBD => ⟨.LDA, .ABX, 4⟩
  | 0xBE => ⟨.LDX, .ABY, 4⟩
  | 0xBF => ⟨.LAX, .ABY, 4⟩
  | 0xC0 => ⟨.CPY, .IMM, 2⟩
  | 0xC1 => ⟨.CMP, .IZX, 6⟩
  | 0xC3 => ⟨.DCP, .IZX, 8⟩
  | 0xC4 => ⟨.CPY, .ZP0, 3⟩
  | 0xC5 => ⟨.CMP, .ZP0, 3⟩
  | 0xC6 => ⟨.DEC, .ZP0, 5⟩
  | 0xC7 => ⟨.DCP, .ZP0, 5⟩
  | 0xC8 => ⟨.INY, .IMP, 2⟩
  | 0xC9 => ⟨.CMP, .IMM, 2⟩
  | 0xCA => ⟨.DEX, .IMP, 2⟩
  | 0xCC => ⟨.CPY, .ABS, 4⟩
  | 0xCD => ⟨.CMP, .ABS, 4⟩
  | 0xCE => ⟨.DEC, .ABS, 6⟩
  | 0xCF => ⟨.DCP, .ABS, 6⟩
  | 0xD0 => ⟨.BNE, .REL, 2⟩
  | 0xD1 => ⟨.CMP, .IZY, 5⟩
  | 0xD3 => ⟨.DCP, .IZY, 8⟩
  | 0xD4 => ⟨.NOP, .ZPX, 4⟩
  | 0xD5 => ⟨.CMP, .ZPX, 4⟩
  | 0xD6 => ⟨.DEC, .ZPX, 6⟩
  | 0xD7 => ⟨.DCP, .ZPX, 6⟩
  | 0xD8 => ⟨.CLD, .IMP, 2⟩
  | 0xD9 => ⟨.CMP, .ABY, 4⟩
  | 0xDA => ⟨.NOP, .IMP, 2⟩
  | 0xDB => ⟨.DCP, .ABY, 7⟩
  | 0xDC => ⟨.NOP, .ABX, 4⟩
  | 0xDD => ⟨.CMP, .ABX, 4⟩
  | 0xDE => ⟨.DEC, .ABX, 7⟩
  | 0xDF => ⟨.DCP, .ABX, 7⟩
  | 0xE0 => ⟨.CPX, .IMM, 2⟩
  | 0xE1 => ⟨.SBC, .IZX, 6⟩
  | 0xE3 => ⟨.ISC, .IZX, 8⟩
  | 0xE4 => ⟨.CPX, .ZP0, 3⟩
  | 0xE5 => ⟨.SBC, .ZP0, 3⟩
  | 0xE6 => ⟨.INC, .ZP0, 5⟩
  | 0xE7 => ⟨.ISC, .ZP0, 5⟩
  | 0xE8 => ⟨.INX, .IMP, 2⟩
  | 0xE9 => ⟨.SBC, .IMM, 2⟩
  | 0xEA => ⟨.NOP, .IMP, 2⟩
  | 0xEB => ⟨.SBC, .IMM, 2⟩
  | 0xEC => ⟨.CPX, .ABS, 4⟩
  | 0xED => ⟨.SBC, .ABS, 4⟩
  | 0xEE => ⟨.INC, .ABS, 6⟩
  | 0xEF => ⟨.ISC, .ABS, 6⟩
  | 0xF0 => ⟨.BEQ, .REL, 2⟩
  | 0xF1 => ⟨.SBC, .IZY, 5⟩
  | 0xF3 => ⟨.ISC, .IZY, 8⟩
  | 0xF4 => ⟨.NOP, .ZPX, 4⟩
  | 0xF5 => ⟨.SBC, .ZPX, 4⟩
  | 0xF6 => ⟨.INC, .ZPX, 6⟩
  | 0xF7 => ⟨.ISC, .ZPX, 6⟩
  | 0xF8 => ⟨.SED, .IMP, 2⟩
  | 0xF9 => ⟨.SBC, .ABY, 4⟩
  | 0xFA => ⟨.NOP, .IMP, 2⟩
  | 0xFB => ⟨.ISC, .ABY, 7⟩
  | 0xFC => ⟨.NOP, .ABX, 4⟩
  | 0xFD => ⟨.SBC, .ABX, 4⟩
  | 0xFE => ⟨.INC, .ABX, 7⟩
  | 0xFF => ⟨.ISC, .ABX, 7⟩
  | _ => ⟨.XXX, .IMP, 0⟩

/-- `MOS6502::cycle` (Mos6502.cpp): at an instruction boundary
(`cycles == 0`) bump the instruction counter, fetch and decode the opcode,
set the base cycles, run the addressing-mode and instruction handlers and
add `addrExtra AND instExtra`; in every case decrement the remaining-cycle
counter and bump the lifetime cycle counter. -/
def cpuCycle (s : Sys) : Option Sys :=
  if s.cpu.cycles = 0 then
    let sa := { s with cpu := { s.cpu with instructionsCounter := s.cpu.instructionsCounter + 1 } }
    let r := busRd sa sa.cpu.pc
    let sb := { r.2 with cpu := { r.2.cpu with opcode := r.1, pc := (r.2.cpu.pc + 1) % 0x10000 } }
    let e := opcodeLUT r.1
    let sc := { sb with cpu := { sb.cpu with cycles := e.baseCycles } }
    let ra := runAm e.am sc
    match runMn e.mn ra.1 with
    | none => none
    | some ri =>
        some { ri.1 with cpu := { ri.1.cpu with
                 cycles := ri.1.cpu.cycles + (ra.2 &&& ri.2) - 1,
                 cyclesCounter := ri.1.cpu.cyclesCounter + 1 } }
  else
    some { s with cpu := { s.cpu with cycles := s.cpu.cycles - 1,
                                      cyclesCounter := s.cpu.cyclesCounter + 1 } }

/-- Fuel-indexed body of `MOS6502::step`: keep calling `cycle` while the
remaining-cycle counter is positive, then call it once more. The fuel is
the initial remaining-cycle count, which `cycle` decrements each tick. -/
def stepAux : Nat → Sys → Option Sys
  | 0, s => cpuCycle s
  | n + 1, s =>
      if s.cpu.cycles = 0 then cpuCycle s
      else (cpuCycle s).bind (stepAux n)

/-- `MOS6502::step`: finish any in-flight instruction, then fetch and run
exactly one more. -/
def cpuStep (s : Sys) : Option Sys :=
  stepAux s.cpu.cycles s

/-- `MOS6502::reset` (Mos6502.cpp): clear status, A, X, Y; SP = 0xFD;
load PC from the little-endian word at 0xFFFC; absorb 7 cycles. -/
def mosReset (s : Sys) : Sys :=
  let s0 := { s with cpu := { s.cpu with status := 0, a := 0, x := 0, y := 0, sp := 0xFD } }
  let rHi := busRd s0 0xFFFD
  let rLo := busRd rHi.2 0xFFFC
  { rLo.2 with cpu := { rLo.2.cpu with pc := (rHi.1 <<< 8) ||| rLo.1, cycles := 7 } }

/-- Iterated `cpuCycle` (used to state the post-reset absorption). -/
def runCycles : Nat → Sys → Option Sys
  | 0, s => some s
  | n + 1, s => (cpuCycle s).bind (runCycles n)

/-- `NesSystem::reset` (Nes.cpp): clear the master clock and the pending
NMI latch, reset the CPU. -/
def sysReset (s : Sys) : Sys :=
  mosReset { s with bus := { s.bus with pendingNmi := false }, clockCounter := 0 }

/-- `NesSystem::cycle` (Nes.cpp): tick the PPU; every fourth master tick
also tick the CPU; then, if an NMI is pending, invoke the CPU's `nmi()`
entry immediately and clear the latch; finally bump the clock counter. -/
def sysCycle (s : Sys) : Option Sys :=
  let s1 := { s with bus := ppuCycle s.bus }
  match (if s.clockCounter &&& 0x03 = 0 then cpuCycle s1 else some s1) with
  | none => none
  | some s2 =>
      let s3 := if s2.bus.pendingNmi then
                  let s4 := mosNmi s2
                  { s4 with bus := { s4.bus with pendingNmi := false } }
                else s2
      some { s3 with clockCounter := s3.clockCounter + 1 }

/-! ## NES controller (NesController.hpp)

The source enum: `A=0x80, B=0x40, SELECT=0x20, START=0x10, UP=0x08,
DOWN=0x04, LEFT=0x02, RIGHT=0x01`. -/

/-- Controller ports. -/
inductive Port where
  | P1 | P2
  deriving DecidableEq, Repr

/-- Controller buttons. -/
inductive Button where
  | A | B | SELECT | START | UP | DOWN | LEFT | RIGHT
  deriving DecidableEq, Repr

/-- The bit assigned to each button by the `Button` enum of the source. -/
def buttonVal : Button → Nat
  | .A => 0x80
  | .B => 0x40
  | .SELECT => 0x20
  | .START => 0x10
  | .UP => 0x08
  | .DOWN => 0x04
  | .LEFT => 0x02
  | .RIGHT => 0x01

/-- State of the two controllers: the shift-register byte and the
reading flag for each port. -/
structure NesController where
  input : Port → Nat
  readingState : Port → Bool

/-- `NesController::setButton`: no-op while the port is being read;
otherwise OR the button bit in (pressed) or mask it out (released). -/
def setButton (c : NesController) (port : Port) (btn : Button) (pressed : Bool) : NesController :=
  if c.readingState port then c
  else if pressed then
    { c with input := fun p => if p = port then c.input port ||| buttonVal btn else c.input p }
  else
    { c with input := fun p => if p = port then c.input port &&& (0xFF ^^^ buttonVal btn) else c.input p }

end NES

namespace NES

/-! ## Helper lemmas about the execution engine -/

/-- With an in-flight instruction (`cycles ≠ 0`), `cycle()` only decrements
the remaining-cycle counter and bumps the lifetime cycle counter. -/
theorem cpuCycle_busy (s : Sys) (h : s.cpu.cycles ≠ 0) :
    cpuCycle s = some { s with cpu := { s.cpu with cycles := s.cpu.cycles - 1,
                                                   cyclesCounter := s.cpu.cyclesCounter + 1 } } := by
  unfold cpuCycle
  rw [if_neg h]

/-- Addressing-mode handlers never touch the instruction counter. -/
theorem runAm_instrCount (am : Am) (s : Sys) :
    ((runAm am s).1).cpu.instructionsCounter = s.cpu.instructionsCounter := by
  cases am <;>
    simp [runAm, amIMP, amACC, amIMM, amZP0, amZPX, amZPY, amREL, amABS, amABX,
          amABY, amIND, amIZX, amIZY, busRd, apply_ite]

set_option maxRecDepth 8000 in
set_option maxHeartbeats 1600000 in
/-- Instruction handlers never touch the instruction counter. -/
theorem runMn_instrCount (m : Mn) (s : Sys) (u : Sys × Nat) (h : runMn m s = some u) :
    u.1.cpu.instructionsCounter = s.cpu.instructionsCounter := by
  cases m <;> simp only [runMn] at h <;>
    first
      | exact Option.noConfusion h
      | (rw [Option.some.injEq] at h; subst h; rfl)
      | (rw [Option.some.injEq] at h
         subst h
         simp only [instrBRK, mosIrq, instrBCC, instrBCS, instrBNE, instrBEQ,
                    instrBPL, instrBMI, instrBVC, instrBVS, doBranch]
         split <;> rfl)

/-- A fetch tick (`cycles = 0`) bumps the instruction counter by exactly 1. -/
theorem cpuCycle_fetch_instrCount (s : Sys) (h0 : s.cpu.cycles = 0) (t : Sys)
    (h : cpuCycle s = some t) :
    t.cpu.instructionsCounter = s.cpu.instructionsCounter + 1 := by
  rw [cpuCycle, if_pos h0] at h
  dsimp only at h
  split at h
  · exact Option.noConfusion h
  · next ri heq =>
      rw [Option.some.injEq] at h
      subst h
      exact (runMn_instrCount _ _ _ heq).trans (runAm_instrCount _ _)

end NES

namespace NES

/-- `step()` bumps the instruction counter by exactly one: the drain loop
preserves it and the single fetch tick adds one. -/
theorem stepAux_instrCount : ∀ (n : Nat) (s : Sys), n = s.cpu.cycles → ∀ t : Sys,
    stepAux n s = some t → t.cpu.instructionsCounter = s.cpu.instructionsCounter + 1 := by
  intro n
  induction n with
  | zero =>
      intro s hn t h
      exact cpuCycle_fetch_instrCount s hn.symm t h
  | succ n ih =>
      intro s hn t h
      have hne : s.cpu.cycles ≠ 0 := by omega
      rw [stepAux, if_neg hne, cpuCycle_busy s hne, Option.some_bind] at h
      exact ih { s with cpu := { s.cpu with cycles := s.cpu.cycles - 1,
                                            cyclesCounter := s.cpu.cyclesCounter + 1 } }
        (show n = s.cpu.cycles - 1 by omega) t h

/-- Iterating `cycle()` while an instruction is in flight only moves the
two counters, as long as the iteration count stays within the remaining
cycles. -/
theorem runCycles_busy : ∀ (n : Nat) (s : Sys), n ≤ s.cpu.cycles →
    runCycles n s = some { s with cpu := { s.cpu with cycles := s.cpu.cycles - n,
                                                      cyclesCounter := s.cpu.cyclesCounter + n } } := by
  intro n
  induction n with
  | zero =>
      intro s _
      simp [runCycles]
  | succ n ih =>
      intro s hn
      have hne : s.cpu.cycles ≠ 0 := by omega
      rw [runCycles, cpuCycle_busy s hne, Option.some_bind,
          ih _ (show n ≤ s.cpu.cycles - 1 by omega)]
      have e1 : s.cpu.cycles - 1 - n = s.cpu.cycles - (n + 1) := by omega
      have e2 : s.cpu.cyclesCounter + 1 + n = s.cpu.cyclesCounter + (n + 1) := by omega
      simp only []
      rw [e1, e2]

/-- Fixed all-zero PPU register file used to build concrete states. -/
def ppuZero : PpuState :=
  ⟨0, 0, false, 0, 0, 0, 0, 0, 0, 0, 0, 0, 0, 0, 0, false⟩

/-- All-zero bus with a single 16 KiB PRG bank and vertical mirroring. -/
def busZero : SysBus :=
  ⟨fun _ => 0, fun _ => 0, 1, fun _ => 0, fun _ => 0, fun _ => 0, 1, 1, ppuZero, false⟩

/-- CPU register file in its power-on configuration of the model. -/
def cpuZero : CpuState :=
  ⟨0, 0, 0, 0, 0, 0, 0, 0xFF, 0, 0, 0, 0⟩

/-- Concrete state with an in-flight instruction (2 cycles remaining) and
NOP opcodes everywhere in PRG. -/
def c10sample : Sys :=
  ⟨{ busZero with prgRom := fun _ => 0xEA }, { cpuZero with pc := 0x8000, cycles := 2 }, 0⟩

/-- The state produced by `step()` from `c10sample`. -/
def c10stepResult : Sys :=
  (cpuStep c10sample).getD c10sample

/-- C10: while the remaining-cycle counter of an in-flight instruction is
nonzero, `cycle()` changes only that counter (minus one) and the lifetime
cycle counter (plus one) — PC, SP, A, X, Y, status and all bus-visible
state are unchanged; and `step()` executes exactly one new instruction,
bumping the instruction counter by exactly one. -/
theorem c10_busy_cycle_and_step_one_instruction (s : Sys) :
    (s.cpu.cycles ≠ 0 →
      cpuCycle s = some { s with cpu := { s.cpu with cycles := s.cpu.cycles - 1,
                                                     cyclesCounter := s.cpu.cyclesCounter + 1 } })
    ∧ (∀ t : Sys, cpuStep s = some t →
        t.cpu.instructionsCounter = s.cpu.instructionsCounter + 1) :=
  ⟨cpuCycle_busy s, fun t h => stepAux_instrCount s.cpu.cycles s rfl t h⟩

/-- Witness for C10 at a concrete in-flight state. -/
theorem c10_witness :
    (cpuCycle c10sample = some { c10sample with cpu := { c10sample.cpu with
        cycles := c10sample.cpu.cycles - 1,
        cyclesCounter := c10sample.cpu.cyclesCounter + 1 } })
    ∧ c10stepResult.cpu.instructionsCounter = c10sample.cpu.instructionsCounter + 1 :=
  ⟨(c10_busy_cycle_and_step_one_instruction c10sample).1 (by decide),
   (c10_busy_cycle_and_step_one_instruction c10sample).2 c10stepResult (by rfl)⟩

end NES

namespace NES

/-- Concrete all-zero system used for the reset counterexample. -/
def c3sys : Sys := ⟨busZero, cpuZero, 0⟩

/-- C3 counterexample: after `reset()` the whole status byte is 0x00, so
the U bit (bit 5) is 0 — the claim requires U = 1. -/
theorem c3_counterexample :
    (mosReset c3sys).cpu.status = 0 ∧ (mosReset c3sys).cpu.status.testBit 5 = false := by
  decide

/-- C3 (amended): after `reset()`, SP = 0xFD, the status byte is entirely
cleared (including U), PC is the little-endian word read from
0xFFFC/0xFFFD, and the next 7 CPU cycles are absorbed — they change only
the two counters, with no fetch. -/
theorem c3_reset_state (s : Sys) :
    (mosReset s).cpu.sp = 0xFD ∧
    (mosReset s).cpu.status = 0 ∧
    (mosReset s).cpu.pc = ((cpuBusRead s.bus 0xFFFD).1 <<< 8) ||| (cpuBusRead s.bus 0xFFFC).1 ∧
    (mosReset s).cpu.cycles = 7 ∧
    runCycles 7 (mosReset s) =
      some { mosReset s with cpu := { (mosReset s).cpu with
              cycles := 0,
              cyclesCounter := (mosReset s).cpu.cyclesCounter + 7 } } :=
  ⟨rfl, rfl, rfl, rfl, runCycles_busy 7 (mosReset s) (Nat.le_refl 7)⟩

/-- Concrete system whose stack holds 0xFF at the pull position. -/
def c2sys : Sys :=
  ⟨{ busZero with ram := fun a => if a = 0x1FE then 0xFF else 0 },
   { cpuZero with sp := 0xFD }, 0⟩

/-- C2 counterexample: PLP pulls 0xFF and leaves bits B (4) and U (5) SET
in the live status register — the claim requires them cleared. -/
theorem c2_counterexample :
    (cpuBusRead c2sys.bus (0x100 + (c2sys.cpu.sp + 1) % 0x100)).1 = 0xFF ∧
    (instrPLP c2sys).1.cpu.status.testBit 4 = true ∧
    (instrPLP c2sys).1.cpu.status.testBit 5 = true := by
  decide

/-- C2 (amended): RTI restores the pulled byte with B and U cleared
(`& 0xCF`); PLP stores the pulled byte verbatim, B and U included. -/
theorem c2_plp_rti_status (s : Sys) :
    (instrPLP s).1.cpu.status = (cpuBusRead s.bus (0x100 + (s.cpu.sp + 1) % 0x100)).1 ∧
    (instrRTI s).1.cpu.status = (cpuBusRead s.bus (0x100 + (s.cpu.sp + 1) % 0x100)).1 &&& 0xCF := by
  refine ⟨rfl, ?_⟩
  show ((cpuBusRead s.bus (0x100 + (s.cpu.sp + 1) % 0x100)).1 &&& (0xFF ^^^ (1 <<< 4)))
        &&& (0xFF ^^^ (1 <<< 5)) = _
  rw [Nat.and_assoc]
  rfl

/-- Concrete system for the BRK evaluation: PC = 0x8001, clear status,
IRQ/BRK vector pointing at 0x9000. -/
def c4sys : Sys :=
  ⟨{ busZero with prgRom := fun a => if a = 0x3FFE then 0x00
                                     else if a = 0x3FFF then 0x90 else 0 },
   { cpuZero with pc := 0x8001, sp := 0xFD }, 0⟩

/-- C4 evaluation at the failing input: BRK pushes PC (0x80, 0x01) and then
the status byte 0x24, whose B bit (bit 4) is 0 — the claim (and the
instruction's own documentation) requires B = 1 in the pushed byte. The I
flag is set before the push (the pushed byte already has I = 1), and PC is
loaded from the 0xFFFE/F vector. -/
theorem c4_brk_pushes_b_clear :
    ramRead 0x800 (instrBRK c4sys).1.bus.ram 0x1FD = 0x80 ∧
    ramRead 0x800 (instrBRK c4sys).1.bus.ram 0x1FC = 0x01 ∧
    ramRead 0x800 (instrBRK c4sys).1.bus.ram 0x1FB = 0x24 ∧
    (ramRead 0x800 (instrBRK c4sys).1.bus.ram 0x1FB).testBit 4 = false ∧
    (ramRead 0x800 (instrBRK c4sys).1.bus.ram 0x1FB).testBit 2 = true ∧
    (instrBRK c4sys).1.cpu.pc = 0x9000 ∧
    (instrBRK c4sys).1.cpu.status.testBit 2 = true ∧
    (instrBRK c4sys).1.cpu.cycles = 7 := by
  decide

/-- C5 evaluation at the failing input: an NROM PRG write is not ignored —
with the release-build mapper (`mapPrgRomWrite = 0`) the byte lands in
`prgRom[0]`, and a subsequent CPU read of 0x8000 (which maps to offset 0)
returns it. -/
theorem c5_prg_write_not_ignored :
    prgRomRead busZero 0x8000 = 0x00 ∧
    prgRomRead (prgRomWrite busZero 0x8000 0x42) 0x8000 = 0x42 ∧
    (prgRomWrite busZero 0x8000 0x42).prgRom 0 = 0x42 ∧
    (cpuBusRead (cpuBusWrite busZero 0x8000 0x42) 0x8000).1 = 0x42 := by
  decide

/-- Controller with no buttons pressed and no port being read. -/
def ctrlZero : NesController := ⟨fun _ => 0, fun _ => false⟩

/-- C9 counterexample: the source assigns A = 0x80 (not 0x01), and pressing
A on a fresh controller sets bit 0x80. -/
theorem c9_counterexample :
    buttonVal Button.A = 0x80 ∧ buttonVal Button.A ≠ 0x01 ∧
    (setButton ctrlZero Port.P1 Button.A true).input Port.P1 = 0x80 := by
  decide

/-- C9 (amended): the button bits are A=0x80, B=0x40, Select=0x20,
Start=0x10, Up=0x08, Down=0x04, Left=0x02, Right=0x01 — the reverse order
of the claim — and while the port is not being read, pressing a button ORs
exactly its bit into that port's buffer. -/
theorem c9_button_bits (c : NesController) (port : Port) (btn : Button)
    (h : c.readingState port = false) :
    (setButton c port btn true).input port = c.input port ||| buttonVal btn ∧
    buttonVal .A = 0x80 ∧ buttonVal .B = 0x40 ∧ buttonVal .SELECT = 0x20 ∧
    buttonVal .START = 0x10 ∧ buttonVal .UP = 0x08 ∧ buttonVal .DOWN = 0x04 ∧
    buttonVal .LEFT = 0x02 ∧ buttonVal .RIGHT = 0x01 := by
  refine ⟨?_, rfl, rfl, rfl, rfl, rfl, rfl, rfl, rfl⟩
  simp [setButton, h]

/-- Witness for C9 at a concrete controller state. -/
theorem c9_witness :
    (setButton ctrlZero Port.P1 Button.A true).input Port.P1 =
      ctrlZero.input Port.P1 ||| buttonVal Button.A ∧
    buttonVal .A = 0x80 ∧ buttonVal .B = 0x40 ∧ buttonVal .SELECT = 0x20 ∧
    buttonVal .START = 0x10 ∧ buttonVal .UP = 0x08 ∧ buttonVal .DOWN = 0x04 ∧
    buttonVal .LEFT = 0x02 ∧ buttonVal .RIGHT = 0x01 :=
  c9_button_bits ctrlZero Port.P1 Button.A rfl

end NES

namespace NES

/-- C8: each background-palette alias pair addresses the same byte of the
32-byte palette store: writing any byte through one address of a pair and
reading through the other returns it, via the PPU bus router. -/
theorem c8_palette_alias (b : SysBus) (v : Nat) (hv : v < 0x100) :
    (ppuBusRead (ppuBusWrite b 0x3F10 v) 0x3F00 = v ∧
     ppuBusRead (ppuBusWrite b 0x3F00 v) 0x3F10 = v) ∧
    (ppuBusRead (ppuBusWrite b 0x3F14 v) 0x3F04 = v ∧
     ppuBusRead (ppuBusWrite b 0x3F04 v) 0x3F14 = v) ∧
    (ppuBusRead (ppuBusWrite b 0x3F18 v) 0x3F08 = v ∧
     ppuBusRead (ppuBusWrite b 0x3F08 v) 0x3F18 = v) ∧
    (ppuBusRead (ppuBusWrite b 0x3F1C v) 0x3F0C = v ∧
     ppuBusRead (ppuBusWrite b 0x3F0C v) 0x3F1C = v) := by
  have hm : v % 0x100 = v := Nat.mod_eq_of_lt hv
  refine ⟨⟨?_, ?_⟩, ⟨?_, ?_⟩, ⟨?_, ?_⟩, ⟨?_, ?_⟩⟩ <;>
    simp [ppuBusRead, ppuBusWrite, paletteRead, paletteWrite, ramRead, ramWrite,
          bgMirror, upd, chrRomWrite, hm] <;>
    split_ifs with h1 h2 <;> first
      | exact hm
      | exact absurd (by decide) h1
      | exact absurd (by decide) h2

/-- Witness for C8: the spec's own concrete example,
`ppu_bus_write(0x3F10, 0x2A); ppu_bus_read(0x3F00) == 0x2A`. -/
theorem c8_witness :
    ppuBusRead (ppuBusWrite busZero 0x3F10 0x2A) 0x3F00 = 0x2A :=
  (c8_palette_alias busZero 0x2A (by decide)).1.1

end NES

namespace NES

/-- A PPU tick never clears an already-latched pending NMI. -/
theorem ppuCycle_keepNmi (b : SysBus) (h : b.pendingNmi = true) :
    (ppuCycle b).pendingNmi = true := by
  simp only [ppuCycle]
  split_ifs <;> simp [h]

/-- Concrete mid-instruction state: pending NMI latched, 3 cycles left on
the in-flight instruction, master clock at a tick that does not run the
CPU, NMI vector pointing at 0x9234. -/
def c1sys : Sys :=
  ⟨{ busZero with pendingNmi := true,
                  prgRom := fun a => if a = 0x3FFA then 0x34
                                     else if a = 0x3FFB then 0x92 else 0,
                  ppu := { ppuZero with cycles := 10, scanline := 100 } },
   { cpuZero with pc := 0x8000, sp := 0xFD, cycles := 3 }, 1⟩

/-- C1 counterexample: with 3 cycles still remaining on the in-flight
instruction (the CPU is not at an instruction boundary, not Idle), one
System cycle() services the pending NMI anyway: the PC jumps to the
0xFFFA/B vector, three bytes are pushed, and the 8-cycle NMI latency
replaces the in-flight counter. -/
theorem c1_counterexample :
    c1sys.cpu.cycles = 3 ∧ c1sys.bus.pendingNmi = true ∧
    (sysCycle c1sys).map (fun t => t.cpu.pc) = some 0x9234 ∧
    (sysCycle c1sys).map (fun t => t.cpu.cycles) = some 8 ∧
    (sysCycle c1sys).map (fun t => t.cpu.sp) = some 0xFA ∧
    (sysCycle c1sys).map (fun t => t.bus.pendingNmi) = some false := by
  decide

set_option maxRecDepth 8000 in
/-- C1 (amended): `nmi()` performs the interrupt sequence from any CPU
state, unconditionally installing its 8-cycle latency; and whenever the
pending-NMI latch is set, the very next System `cycle()` (here on a tick
that does not even run the CPU) invokes `cpu.nmi()` and clears the latch —
it does not wait for an instruction boundary. -/
theorem c1_nmi_serviced_immediately (s : Sys) :
    ((mosNmi s).cpu.cycles = 8) ∧
    (s.bus.pendingNmi = true → s.clockCounter &&& 0x03 ≠ 0 →
      sysCycle s = some (let s4 := mosNmi { s with bus := ppuCycle s.bus }
                         { s4 with bus := { s4.bus with pendingNmi := false },
                                   clockCounter := s.clockCounter + 1 })) := by
  refine ⟨rfl, fun h1 h2 => ?_⟩
  have hb : (ppuCycle s.bus).pendingNmi = true := ppuCycle_keepNmi s.bus h1
  simp only [sysCycle, if_neg h2]
  rw [if_pos hb]
  rfl

/-- Witness for C1 at the concrete state `c1sys`. -/
theorem c1_witness :
    ((mosNmi c1sys).cpu.cycles = 8) ∧
    (sysCycle c1sys = some (let s4 := mosNmi { c1sys with bus := ppuCycle c1sys.bus }
                            { s4 with bus := { s4.bus with pendingNmi := false },
                                      clockCounter := c1sys.clockCounter + 1 })) :=
  ⟨(c1_nmi_serviced_immediately c1sys).1,
   (c1_nmi_serviced_immediately c1sys).2 rfl (by decide)⟩

end NES

namespace NES

/-- Behaviour of buffered reads at an arbitrary PPU state: a palette-range
`v` is served directly; otherwise the old buffer is returned, and the next
read returns the byte fetched at `v` provided the incremented address is
still below the palette range. -/
theorem buffered_read_spec (c : SysBus) :
    (c.ppu.ppuAddr ≥ 0x3F00 → (dataRead c).1 = ppuBusRead c c.ppu.ppuAddr) ∧
    (c.ppu.ppuAddr < 0x3F00 → (dataRead c).1 = c.ppu.dataBuffer) ∧
    (c.ppu.ppuAddr < 0x3F00 → c.ppu.ppuAddr + vIncrement c.ppu.ctrl < 0x3F00 →
      (dataRead (dataRead c).2).1 = ppuBusRead c c.ppu.ppuAddr) := by
  refine ⟨fun h => ?_, fun h => ?_, fun h hinc => ?_⟩
  · show (if c.ppu.ppuAddr ≥ 0x3F00 then ppuBusRead c c.ppu.ppuAddr
          else c.ppu.dataBuffer) = _
    rw [if_pos h]
  · show (if c.ppu.ppuAddr ≥ 0x3F00 then ppuBusRead c c.ppu.ppuAddr
          else c.ppu.dataBuffer) = _
    rw [if_neg (by omega)]
  · have hlt : ¬ ((dataRead c).2.ppu.ppuAddr ≥ 0x3F00) := by
      show ¬ ((c.ppu.ppuAddr + vIncrement c.ppu.ctrl) % 0x10000 ≥ 0x3F00)
      rw [Nat.mod_eq_of_lt (by omega)]
      omega
    show (if (dataRead c).2.ppu.ppuAddr ≥ 0x3F00
          then ppuBusRead (dataRead c).2 (dataRead c).2.ppu.ppuAddr
          else (dataRead c).2.ppu.dataBuffer) = _
    rw [if_neg hlt]
    rfl

/-- The two-step address write with the toggle initially clear: the high
six bits land in the latch (bit 14 cleared), the low byte completes it,
and `v` is loaded from the latch. -/
theorem addressWrite_pair (b : SysBus) (hi lo : Nat) (hw : b.ppu.writeToggle = false) :
    addressWrite (addressWrite b hi) lo =
      { b with ppu := { b.ppu with
          tmpAddr := ((((b.ppu.tmpAddr &&& 0xFF) ||| ((hi &&& 0x3F) <<< 8)) &&& 0x7F00)
                        ||| lo % 0x100),
          ppuAddr := ((((b.ppu.tmpAddr &&& 0xFF) ||| ((hi &&& 0x3F) <<< 8)) &&& 0x7F00)
                        ||| lo % 0x100),
          writeToggle := false } } := by
  simp [addressWrite, hw]

/-- C6 (amended): `data_read` returns the buffered byte and refills the
buffer from `v`, serving `v ≥ 0x3F00` directly, and post-increments `v` by
1 or 32 according to PPUCTRL.IncrementMode (bit 2). Consequently, after an
address write sequence (hi, lo), a read from a palette address returns the
stored byte immediately, and a read from a non-palette address returns it
after one buffered read — provided the post-increment address of the first
read is still below 0x3F00 (otherwise the second read is itself served
from the palette at the incremented address, not from the buffer). -/
theorem c6_buffered_data_read (b : SysBus) (hi lo : Nat) :
    ((dataRead b).1 = (if b.ppu.ppuAddr ≥ 0x3F00 then ppuBusRead b b.ppu.ppuAddr
                       else b.ppu.dataBuffer)) ∧
    ((dataRead b).2.ppu.dataBuffer = ppuBusRead b b.ppu.ppuAddr) ∧
    ((dataRead b).2.ppu.ppuAddr =
      (b.ppu.ppuAddr + (if b.ppu.ctrl.testBit 2 then 32 else 1)) % 0x10000) ∧
    (b.ppu.writeToggle = false →
      (let b2 := addressWrite (addressWrite b hi) lo
       (b2.ppu.ppuAddr ≥ 0x3F00 → (dataRead b2).1 = ppuBusRead b b2.ppu.ppuAddr) ∧
       (b2.ppu.ppuAddr < 0x3F00 → (dataRead b2).1 = b.ppu.dataBuffer) ∧
       (b2.ppu.ppuAddr < 0x3F00 →
         b2.ppu.ppuAddr + (if b.ppu.ctrl.testBit 2 then 32 else 1) < 0x3F00 →
         (dataRead (dataRead b2).2).1 = ppuBusRead b b2.ppu.ppuAddr))) := by
  refine ⟨rfl, rfl, rfl, fun hw => ?_⟩
  rw [addressWrite_pair b hi lo hw]
  exact ⟨fun h => (buffered_read_spec _).1 h,
         fun h => (buffered_read_spec _).2.1 h,
         fun h h2 => (buffered_read_spec _).2.2 h h2⟩

/-- Bus whose palette entry 0 holds 0x2A, everything else zero. -/
def c6bus : SysBus := { busZero with palette := fun a => if a = 0 then 0x2A else 0 }

/-- C6 counterexample: after the address write sequence (0x3E, 0xFF), the
target 0x3EFF is a non-palette location whose stored byte reads 0x00, yet
the second `data_read` returns 0x2A — the palette byte at the incremented
address 0x3F00 — so the byte at 0x3EFF is never returned. -/
theorem c6_counterexample :
    (addressWrite (addressWrite c6bus 0x3E) 0xFF).ppu.ppuAddr = 0x3EFF ∧
    ppuBusRead c6bus 0x3EFF = 0x00 ∧
    (dataRead (addressWrite (addressWrite c6bus 0x3E) 0xFF)).1 = 0x00 ∧
    (dataRead (dataRead (addressWrite (addressWrite c6bus 0x3E) 0xFF)).2).1 = 0x2A := by
  decide

/-- Bus with a nametable byte 0x77 at VRAM 0x2005 and read buffer 0x55. -/
def c6wbus : SysBus :=
  { busZero with vramMem := fun x => if x = 5 then 0x77 else 0,
                 ppu := { ppuZero with dataBuffer := 0x55 } }

/-- Witness for C6: write address (0x20, 0x05); the first read returns the
old buffer 0x55, the second returns the byte 0x77 stored at 0x2005. -/
theorem c6_witness :
    (dataRead (addressWrite (addressWrite c6wbus 0x20) 0x05)).1 = 0x55 ∧
    (dataRead (dataRead (addressWrite (addressWrite c6wbus 0x20) 0x05)).2).1 = 0x77 ∧
    ppuBusRead c6wbus 0x2005 = 0x77 :=
  ⟨((c6_buffered_data_read c6wbus 0x20 0x05).2.2.2 rfl).2.1 (by decide),
   (((c6_buffered_data_read c6wbus 0x20 0x05).2.2.2 rfl).2.2 (by decide) (by decide)).trans
     (by decide),
   by decide⟩

end NES

namespace NES

/-- The condition tested by each of the eight branch opcodes, as a function
of the status byte (BPL 0x10, BMI 0x30, BVC 0x50, BVS 0x70, BCC 0x90,
BCS 0xB0, BNE 0xD0, BEQ 0xF0). -/
def branchCond (opc st : Nat) : Bool :=
  if opc = 0x10 then !st.testBit 7
  else if opc = 0x30 then st.testBit 7
  else if opc = 0x50 then !st.testBit 6
  else if opc = 0x70 then st.testBit 6
  else if opc = 0x90 then !st.testBit 0
  else if opc = 0xB0 then st.testBit 0
  else if opc = 0xD0 then !st.testBit 1
  else st.testBit 1

/-- Cost of one branch instruction dispatched from Idle, generic in the
mnemonic and its condition: not taken adds 0 to the base 2 cycles, taken
within the page adds 1, taken across a page adds 2. -/
theorem branch_cost (s : Sys) (mn : Mn) (cond : Nat → Bool)
    (h0 : s.cpu.cycles = 0)
    (hlut : opcodeLUT ((cpuBusRead s.bus s.cpu.pc).1) = ⟨mn, .REL, 2⟩)
    (hrun : ∀ u : Sys, runMn mn u = some (doBranch u (cond u.cpu.status))) :
    ∃ t : Sys, cpuCycle s = some t ∧
      (let off := (cpuBusRead (cpuBusRead s.bus s.cpu.pc).2 ((s.cpu.pc + 1) % 0x10000)).1
       let oldPC := ((s.cpu.pc + 1) % 0x10000 + 1) % 0x10000
       let newPC := (oldPC + (if off < 0x80 then off else off + 0xFF00)) % 0x10000
       (cond s.cpu.status = false → t.cpu.cycles + 1 = 2 ∧ t.cpu.pc = oldPC) ∧
       (cond s.cpu.status = true → newPC &&& 0xFF00 = oldPC &&& 0xFF00 →
          t.cpu.cycles + 1 = 2 + 1 ∧ t.cpu.pc = newPC) ∧
       (cond s.cpu.status = true → newPC &&& 0xFF00 ≠ oldPC &&& 0xFF00 →
          t.cpu.cycles + 1 = 2 + 2 ∧ t.cpu.pc = newPC)) := by
  simp only [cpuCycle, if_pos h0, busRd, hlut, runAm, amREL, hrun, doBranch]
  refine ⟨_, rfl, ?_, ?_, ?_⟩
  · intro hc
    simp [hc]
  · intro hc hp
    simp [hc]
    simp at hp
    simp [hp, show (3 &&& 1 : Nat) = 1 from rfl]
  · intro hc hp
    simp [hc]
    simp at hp
    simp [hp, show (3 &&& 2 : Nat) = 2 from rfl]

end NES

namespace NES

/-- C7: for each of the eight branch opcodes dispatched from Idle, the
instruction costs its base 2 cycles when the condition fails, exactly one
extra cycle when taken within the page of the pre-branch PC, and exactly
two extra when taken across a page boundary (the total cost is the
remaining-cycle counter installed by the fetch tick plus the tick itself). -/
theorem c7_branch_cycle_cost (s : Sys) (opc : Nat)
    (h0 : s.cpu.cycles = 0)
    (hbr : opc = 0x10 ∨ opc = 0x30 ∨ opc = 0x50 ∨ opc = 0x70 ∨
           opc = 0x90 ∨ opc = 0xB0 ∨ opc = 0xD0 ∨ opc = 0xF0)
    (hop : (cpuBusRead s.bus s.cpu.pc).1 = opc) :
    ∃ t : Sys, cpuCycle s = some t ∧
      (let off := (cpuBusRead (cpuBusRead s.bus s.cpu.pc).2 ((s.cpu.pc + 1) % 0x10000)).1
       let oldPC := ((s.cpu.pc + 1) % 0x10000 + 1) % 0x10000
       let newPC := (oldPC + (if off < 0x80 then off else off + 0xFF00)) % 0x10000
       (branchCond opc s.cpu.status = false → t.cpu.cycles + 1 = 2 ∧ t.cpu.pc = oldPC) ∧
       (branchCond opc s.cpu.status = true → newPC &&& 0xFF00 = oldPC &&& 0xFF00 →
          t.cpu.cycles + 1 = 2 + 1 ∧ t.cpu.pc = newPC) ∧
       (branchCond opc s.cpu.status = true → newPC &&& 0xFF00 ≠ oldPC &&& 0xFF00 →
          t.cpu.cycles + 1 = 2 + 2 ∧ t.cpu.pc = newPC)) := by
  rcases hbr with rfl | rfl | rfl | rfl | rfl | rfl | rfl | rfl
  · exact branch_cost s .BPL (fun st => !st.testBit 7) h0 (by rw [hop]; rfl) (fun u => rfl)
  · exact branch_cost s .BMI (fun st => st.testBit 7) h0 (by rw [hop]; rfl) (fun u => rfl)
  · exact branch_cost s .BVC (fun st => !st.testBit 6) h0 (by rw [hop]; rfl) (fun u => rfl)
  · exact branch_cost s .BVS (fun st => st.testBit 6) h0 (by rw [hop]; rfl) (fun u => rfl)
  · exact branch_cost s .BCC (fun st => !st.testBit 0) h0 (by rw [hop]; rfl) (fun u => rfl)
  · exact branch_cost s .BCS (fun st => st.testBit 0) h0 (by rw [hop]; rfl) (fun u => rfl)
  · exact branch_cost s .BNE (fun st => !st.testBit 1) h0 (by rw [hop]; rfl) (fun u => rfl)
  · exact branch_cost s .BEQ (fun st => st.testBit 1) h0 (by rw [hop]; rfl) (fun u => rfl)

/-- Idle CPU pointing at a BEQ (0xF0) with offset 0x10, Z flag set. -/
def c7sys : Sys :=
  ⟨{ busZero with prgRom := fun a => if a = 0x100 then 0xF0
                                     else if a = 0x101 then 0x10 else 0 },
   { cpuZero with pc := 0x8100, status := 2 }, 0⟩

/-- Witness for C7 at a concrete taken BEQ. -/
theorem c7_witness : ∃ t : Sys, cpuCycle c7sys = some t ∧
    (let off := (cpuBusRead (cpuBusRead c7sys.bus c7sys.cpu.pc).2
                  ((c7sys.cpu.pc + 1) % 0x10000)).1
     let oldPC := ((c7sys.cpu.pc + 1) % 0x10000 + 1) % 0x10000
     let newPC := (oldPC + (if off < 0x80 then off else off + 0xFF00)) % 0x10000
     (branchCond 0xF0 c7sys.cpu.status = false → t.cpu.cycles + 1 = 2 ∧ t.cpu.pc = oldPC) ∧
     (branchCond 0xF0 c7sys.cpu.status = true → newPC &&& 0xFF00 = oldPC &&& 0xFF00 →
        t.cpu.cycles + 1 = 2 + 1 ∧ t.cpu.pc = newPC) ∧
     (branchCond 0xF0 c7sys.cpu.status = true → newPC &&& 0xFF00 ≠ oldPC &&& 0xFF00 →
        t.cpu.cycles + 1 = 2 + 2 ∧ t.cpu.pc = newPC)) :=
  c7_branch_cycle_cost c7sys 0xF0 rfl (by decide) (by decide)

end NES
